import Mathlib

/-!
MindVolta chat backend: message dispatch and response classification

A shallow embedding of the chat pipeline of the MindVolta API server:

* `src/app.js`: the socket.io `send_message` handler and `generateAIResponse`
  (the push channel);
* `src/routes/chat.js`: `GET /history`, `POST /message` and
  `generateBasicAIResponse` (the pull channel).

JavaScript strings are modelled by `String`.  `String.prototype.toLowerCase` is a
parameter of the two classifiers (named `toLowerCase`), so every universal
statement holds for whatever lower-casing the runtime performs; concrete runs use
`asciiLower`, which agrees with it on ASCII text.  The database behind Prisma is
modelled by the list of stored messages, in insertion order, together with an
explicit outcome for each `create` call.
-/

set_option autoImplicit false
set_option maxRecDepth 100000

namespace MindVolta

/-! ## Strings -/

/-- Prefix test on character lists: `t` is a prefix of `s`. -/
def startsWithChars : List Char → List Char → Bool
  | _, [] => true
  | [], _ :: _ => false
  | c :: cs, d :: ds => c == d && startsWithChars cs ds

/-- Substring test on character lists: `t` occurs somewhere in `s`. -/
def includesChars : List Char → List Char → Bool
  | [], t => startsWithChars [] t
  | c :: cs, t => startsWithChars (c :: cs) t || includesChars cs t

/-- JavaScript `s.includes(t)`: substring containment. -/
def includes (s t : String) : Bool :=
  includesChars s.data t.data

/-- Lower-casing of ASCII letters, every other character unchanged; it agrees with
JavaScript `toLowerCase` on every text whose characters are ASCII or have no
lower-case mapping of their own (as the letter ß, which lower-cases to itself). -/
def asciiLower (s : String) : String :=
  String.mk (s.data.map Char.toLower)

/-! ## The pull-channel classifier (`src/routes/chat.js`) -/

/-- Response of the first rule of `generateBasicAIResponse` (therapist / doctor). -/
def basicReferralResponse : String :=
  "I understand you'd like to speak with a professional. I recommend Dr. Saheed, a qualified psychiatrist at Psychiatric Hospital, Aro, Abeokuta. He specializes in anxiety, depression, and addiction therapy for young people."

/-- Response of the second rule of `generateBasicAIResponse` (sad / depressed). -/
def basicSadResponse : String :=
  "I hear that you're going through a difficult time. It's completely normal to feel sad sometimes, and it's brave of you to reach out. Would you like to try some coping strategies, or would you prefer to talk about what's troubling you?"

/-- Response of the third rule of `generateBasicAIResponse` (anxious / anxiety). -/
def basicAnxietyResponse : String :=
  "Anxiety can feel overwhelming, but there are ways to manage it. Let's start with a simple breathing exercise: Breathe in slowly for 4 counts, hold for 4, then breathe out for 4. Repeat this a few times. How are you feeling right now?"

/-- Fall-through response of `generateBasicAIResponse`. -/
def basicDefaultResponse : String :=
  "Thank you for sharing that with me. I'm here to listen and support you through your mental health journey. Can you tell me more about how you're feeling today?"

/-- The function `generateBasicAIResponse(message)` of `routes/chat.js`. -/
def generateBasicAIResponse (toLowerCase : String → String) (message : String) : String :=
  let lowerMessage := toLowerCase message
  if includes lowerMessage "therapist" || includes lowerMessage "doctor" then
    basicReferralResponse
  else if includes lowerMessage "sad" || includes lowerMessage "depressed" then
    basicSadResponse
  else if includes lowerMessage "anxious" || includes lowerMessage "anxiety" then
    basicAnxietyResponse
  else
    basicDefaultResponse

/-! ## The push-channel classifier (`src/app.js`) -/

/-- The entry `responses.greeting` of `generateAIResponse`. -/
def responsesGreeting : String :=
  "Hello! I'm here to help with your mental health journey. How are you feeling today?"

/-- The entry `responses.sad` of `generateAIResponse`. -/
def responsesSad : String :=
  "I understand you're going through a difficult time. It's okay to feel sad, and I'm here to support you. Would you like to talk about what's bothering you?"

/-- The entry `responses.anxious` of `generateAIResponse`. -/
def responsesAnxious : String :=
  "Anxiety can be overwhelming, but you're not alone. Let's try some breathing exercises together. Take a deep breath in for 4 counts, hold for 4, and out for 4."

/-- The entry `responses.happy` of `generateAIResponse`. -/
def responsesHappy : String :=
  "I'm so glad to hear you're feeling good today! What's bringing you joy?"

/-- The entry `responses.default` of `generateAIResponse`. -/
def responsesDefault : String :=
  "Thank you for sharing that with me. Can you tell me more about how you're feeling? I'm here to listen and support you."

/-- The function `generateAIResponse(message)` of `app.js`. -/
def generateAIResponse (toLowerCase : String → String) (message : String) : String :=
  let lowerMessage := toLowerCase message
  if includes lowerMessage "hello" || includes lowerMessage "hi" then
    responsesGreeting
  else if includes lowerMessage "sad" || includes lowerMessage "depressed" then
    responsesSad
  else if includes lowerMessage "anxious" || includes lowerMessage "anxiety" then
    responsesAnxious
  else if includes lowerMessage "happy" || includes lowerMessage "good" then
    responsesHappy
  else
    responsesDefault

/-! ## Categories -/

/-- The intent categories of the specification. -/
inductive Category where
  | professional_referral
  | sadness
  | anxiety
  | greeting
  | happiness
  | default
  deriving DecidableEq, Repr

/-- The category a pull-channel response text stands for: the rule of
`generateBasicAIResponse` that returns it. -/
def basicCategoryOf (response : String) : Category :=
  if response = basicReferralResponse then Category.professional_referral
  else if response = basicSadResponse then Category.sadness
  else if response = basicAnxietyResponse then Category.anxiety
  else Category.default

/-- The category a push-channel response text stands for: the key of the
`responses` table of `generateAIResponse` that holds it. -/
def pushCategoryOf (response : String) : Category :=
  if response = responsesGreeting then Category.greeting
  else if response = responsesSad then Category.sadness
  else if response = responsesAnxious then Category.anxiety
  else if response = responsesHappy then Category.happiness
  else Category.default

/-! ## The conversation store (Prisma `message` model) -/

/-- A stored message record.  `createdAt` is the time the database stamped on the
record, in milliseconds. -/
structure Message where
  id : Nat
  content : String
  senderId : String
  receiverId : String
  isAI : Bool
  createdAt : Nat
  deriving DecidableEq, Repr

/-- The `data` argument of `prisma.message.create`. -/
structure MessageData where
  content : String
  senderId : String
  receiverId : String
  isAI : Bool
  deriving DecidableEq, Repr

/-- What the database does with one `create` call: it rejects the call (the
promise is rejected, the handler's `catch` runs), or it stores the record under an
id and a creation time of its own choosing. -/
inductive CreateOutcome where
  | rejected
  | stored (id : Nat) (createdAt : Nat)
  deriving DecidableEq, Repr

/-- The call `prisma.message.create({ data })` on the store `db` (the records in
insertion order): the created record and the store extended by it, `none` when
the call is rejected. -/
def create (db : List Message) (data : MessageData) : CreateOutcome → Option (Message × List Message)
  | CreateOutcome.rejected => none
  | CreateOutcome.stored id createdAt =>
    let m : Message :=
      { id := id, content := data.content, senderId := data.senderId,
        receiverId := data.receiverId, isAI := data.isAI, createdAt := createdAt }
    some (m, db ++ [m])

/-- The `where` clause of the history query: the user is sender or receiver. -/
def inConversation (userId : String) (m : Message) : Bool :=
  m.senderId == userId || m.receiverId == userId

/-- The order of `orderBy: { createdAt: "asc" }`. -/
def createdAtLe (a b : Message) : Prop :=
  a.createdAt ≤ b.createdAt

instance : DecidableRel createdAtLe :=
  fun a b => inferInstanceAs (Decidable (a.createdAt ≤ b.createdAt))

/-- The query `prisma.message.findMany({ where, orderBy: { createdAt: "asc" }, take: 100 })`
of `GET /history`: filter, sort ascending by `createdAt` (records with equal
`createdAt` keep their insertion order), keep the first 100 rows. -/
def findMany (db : List Message) (userId : String) : List Message :=
  ((db.filter (inConversation userId)).insertionSort createdAtLe).take 100

instance : IsTotal Message createdAtLe :=
  ⟨fun a b => Nat.le_total a.createdAt b.createdAt⟩

instance : IsTrans Message createdAtLe :=
  ⟨fun _ _ _ hab hbc => Nat.le_trans hab hbc⟩

/-- A conversation of one hundred stored messages of the user "u1", with ids and
creation times 0 to 99. -/
def hundredMessages : List Message :=
  (List.range 100).map fun i =>
    { id := i, content := "hello", senderId := "u1", receiverId := "ai", isAI := false,
      createdAt := i }

/-! ## Replies and effects -/

/-- The JSON shape of a message sent to a client.  `timestamp` stands for the
locale time string of the date it carries; `showButtons` is `none` where the
source object has no such field. -/
structure MessageView where
  id : Nat
  text : String
  isUser : Bool
  timestamp : Nat
  showButtons : Option Bool
  deriving DecidableEq, Repr

/-- An HTTP reply: `res.json({ success: true, data })`, or
`res.status(status).json({ success: false, message })`. -/
inductive Reply (α : Type) where
  | success (data : α)
  | failure (status : Nat) (message : String)
  deriving DecidableEq, Repr

/-- The `data` object of the reply of `POST /message`. -/
structure MessagePair where
  userMessage : MessageView
  aiMessage : MessageView
  deriving DecidableEq, Repr

/-- A deferred emit registered with `setTimeout`. -/
structure Timer where
  delay : Nat
  room : String
  id : Nat
  text : String
  deriving DecidableEq, Repr

/-- The observable steps of a handler run, in program order. -/
inductive Step where
  | create (data : MessageData) (outcome : CreateOutcome)
  | classify (text : String) (response : String)
  | emit (room : String) (payload : MessageView)
  | setTimeout (timer : Timer)
  | consoleError (label : String)
  deriving DecidableEq, Repr

/-- Whether a step is a call of a classifier. -/
def Step.isClassify : Step → Bool
  | Step.classify _ _ => true
  | _ => false

/-- Whether a step sends an event to a push-channel room. -/
def Step.isEmit : Step → Bool
  | Step.emit _ _ => true
  | _ => false

/-! ## The pull channel (`src/routes/chat.js`) -/

/-- The mapping `messages.map((msg) => ...)` of `GET /history`. -/
def formatMessage (userId : String) (msg : Message) : MessageView :=
  { id := msg.id, text := msg.content, isUser := msg.senderId == userId,
    timestamp := msg.createdAt, showButtons := some (includes msg.content "Dr. Saheed") }

/-- The handler `router.get("/history")` for the authenticated user `userId`;
`available` tells whether the query succeeds. -/
def getHistory (db : List Message) (userId : String) (available : Bool) : Reply (List MessageView) :=
  if available then
    Reply.success ((findMany db userId).map (formatMessage userId))
  else
    Reply.failure 500 "Failed to get chat history"

/-- The result of one run of `POST /message`. -/
structure PostMessageRun where
  db : List Message
  steps : List Step
  reply : Reply MessagePair
  deriving DecidableEq, Repr

/-- The handler `router.post("/message")` for the authenticated user `userId` and
the body field `message`; `o1` and `o2` are the outcomes of the first and of the
second `create` call (the second is consulted only when the call is made). -/
def postMessage (toLowerCase : String → String) (db : List Message) (userId message : String)
    (o1 o2 : CreateOutcome) : PostMessageRun :=
  let userData : MessageData :=
    { content := message, senderId := userId, receiverId := "ai", isAI := false }
  match create db userData o1 with
  | none =>
    { db := db
      steps := [Step.create userData o1, Step.consoleError "Send message error:"]
      reply := Reply.failure 500 "Failed to send message" }
  | some (userMessage, db1) =>
    let aiResponseText := generateBasicAIResponse toLowerCase message
    let aiData : MessageData :=
      { content := aiResponseText, senderId := "ai", receiverId := userId, isAI := true }
    match create db1 aiData o2 with
    | none =>
      { db := db1
        steps := [Step.create userData o1, Step.classify message aiResponseText,
          Step.create aiData o2, Step.consoleError "Send message error:"]
        reply := Reply.failure 500 "Failed to send message" }
    | some (aiMessage, db2) =>
      { db := db2
        steps := [Step.create userData o1, Step.classify message aiResponseText,
          Step.create aiData o2]
        reply := Reply.success
          { userMessage :=
              { id := userMessage.id, text := userMessage.content, isUser := true,
                timestamp := userMessage.createdAt, showButtons := none }
            aiMessage :=
              { id := aiMessage.id, text := aiMessage.content, isUser := false,
                timestamp := aiMessage.createdAt,
                showButtons := some (includes aiMessage.content "Dr. Saheed") } } }

/-! ## The push channel (`src/app.js`) -/

/-- The payload `data` of a `send_message` event; `receiverId` is `none` when the
payload has no such field. -/
structure SendMessageData where
  message : String
  userId : String
  receiverId : Option String
  deriving DecidableEq, Repr

/-- The expression `data.receiverId || "ai"`: an absent or empty `receiverId` is
falsy. -/
def receiverOrAi : Option String → String
  | none => "ai"
  | some r => if r = "" then "ai" else r

/-- The room name of a user, `user_` followed by the user id. -/
def roomOf (userId : String) : String :=
  "user_" ++ userId

/-- The result of one run of the `send_message` handler. -/
structure SendMessageRun where
  db : List Message
  steps : List Step
  deriving DecidableEq, Repr

/-- The handler `socket.on("send_message")` on the payload `data`; `now` is the
clock reading at the first emit, `o1` and `o2` are the outcomes of the first and
of the second `create` call. -/
def sendMessage (toLowerCase : String → String) (db : List Message) (data : SendMessageData)
    (now : Nat) (o1 o2 : CreateOutcome) : SendMessageRun :=
  let userData : MessageData :=
    { content := data.message, senderId := data.userId,
      receiverId := receiverOrAi data.receiverId, isAI := false }
  match create db userData o1 with
  | none =>
    { db := db
      steps := [Step.create userData o1, Step.consoleError "Error handling message:"] }
  | some (message, db1) =>
    let echo : MessageView :=
      { id := message.id, text := message.content, isUser := true, timestamp := now,
        showButtons := none }
    let aiResponse := generateAIResponse toLowerCase data.message
    let aiData : MessageData :=
      { content := aiResponse, senderId := "ai", receiverId := data.userId, isAI := true }
    match create db1 aiData o2 with
    | none =>
      { db := db1
        steps := [Step.create userData o1, Step.emit (roomOf data.userId) echo,
          Step.classify data.message aiResponse, Step.create aiData o2,
          Step.consoleError "Error handling message:"] }
    | some (aiMessage, db2) =>
      { db := db2
        steps := [Step.create userData o1, Step.emit (roomOf data.userId) echo,
          Step.classify data.message aiResponse, Step.create aiData o2,
          Step.setTimeout
            { delay := 1000, room := roomOf data.userId, id := aiMessage.id,
              text := aiResponse }] }

/-! ## Trigger vocabulary -/

/-- The lower-cased text contains a referral trigger. -/
def hasReferralTrigger (lowerMessage : String) : Bool :=
  includes lowerMessage "therapist" || includes lowerMessage "doctor"

/-- The lower-cased text contains a sadness trigger. -/
def hasSadnessTrigger (lowerMessage : String) : Bool :=
  includes lowerMessage "sad" || includes lowerMessage "depressed"

/-- The lower-cased text contains an anxiety trigger. -/
def hasAnxietyTrigger (lowerMessage : String) : Bool :=
  includes lowerMessage "anxious" || includes lowerMessage "anxiety"

/-- The lower-cased text contains a greeting trigger. -/
def hasGreetingTrigger (lowerMessage : String) : Bool :=
  includes lowerMessage "hello" || includes lowerMessage "hi"

/-- The lower-cased text contains a happiness trigger. -/
def hasHappinessTrigger (lowerMessage : String) : Bool :=
  includes lowerMessage "happy" || includes lowerMessage "good"

/-! ## Further observations on runs -/

/-- Whether a step is a `create` call for an agent message (`isAI: true`). -/
def Step.isAgentCreate : Step → Bool
  | Step.create data _ => data.isAI
  | _ => false

/-- Whether a stored record is an agent message. -/
def Message.fromAgent (m : Message) : Bool :=
  m.isAI


/-- Upper-casing of one character: an ASCII letter becomes its capital, the letter ß
becomes the two letters "SS" (its upper-case form in JavaScript), every other
character is left as it is. -/
def upperChars (c : Char) : List Char :=
  if c = 'ß' then ['S', 'S'] else [c.toUpper]

/-- JavaScript `toUpperCase` on the texts made of ASCII characters and the letter ß;
other characters are outside this model and left unchanged. -/
def toUpperCase (s : String) : String :=
  String.mk (s.data.flatMap upperChars)


/-- The conversation `hundredMessages` of the user "u1" extended by one later
message, 101 messages in all. -/
def hundredAndOneMessages : List Message :=
  hundredMessages ++
    [{ id := 100, content := "hello", senderId := "u1", receiverId := "ai", isAI := false,
       createdAt := 100 }]

/-! ## Push-channel sessions and deferred delivery (`src/app.js`) -/

/-- The room membership kept by the socket.io server: the pairs of a socket id and
a room that socket has joined. -/
abbrev Rooms := List (String × String)

/-- The handler `socket.on("join_chat")`: the socket joins the room of the user.  A
room is a set of sockets: joining a room the socket is already in changes
nothing. -/
def joinChat (rooms : Rooms) (socketId userId : String) : Rooms :=
  if (socketId, roomOf userId) ∈ rooms then rooms else rooms ++ [(socketId, roomOf userId)]

/-- A disconnecting socket leaves its rooms (the `disconnect` handler itself only
writes to the console). -/
def disconnect (rooms : Rooms) (socketId : String) : Rooms :=
  rooms.filter fun p => p.1 != socketId

/-- The call `io.to(room).emit("receive_message", payload)`: one delivery, the pair
of the socket id and the payload, per socket joined to the room. -/
def emitTo (rooms : Rooms) (room : String) (payload : MessageView) :
    List (String × MessageView) :=
  (rooms.filter fun p => p.2 == room).map fun p => (p.1, payload)

/-- The callback that `send_message` registers with `setTimeout`, run when the clock
reads `now`: it emits the agent message to the user's room and does nothing else;
the store is not among its inputs or outputs. -/
def fireTimer (rooms : Rooms) (timer : Timer) (now : Nat) : List (String × MessageView) :=
  emitTo rooms timer.room
    { id := timer.id, text := timer.text, isUser := false, timestamp := now,
      showButtons := none }


/-! ## Mood analytics (`src/routes/mood.js`, `src/routes/insights.js`) -/

/-- The mood names accepted by `POST /api/mood` (the `isIn` list of `mood.js`). -/
inductive Mood where
  | HAPPY
  | SAD
  | ANGRY
  | ANXIOUS
  | CALM
  | EXCITED
  | DEPRESSED
  | STRESSED
  | CONTENT
  | OVERWHELMED
  deriving DecidableEq, Repr

/-- A stored mood entry, with the fields the analytics read. -/
structure MoodEntry where
  mood : Mood
  intensity : Nat
  deriving DecidableEq, Repr

/-- A JavaScript object with mood names as keys and counts as values, its keys in
insertion order (the order of `Object.keys`). -/
abbrev MoodCounts := List (Mood × Nat)

/-- The property read `dist[mood]`: `none` stands for `undefined`. -/
def countOf : MoodCounts → Mood → Option Nat
  | [], _ => none
  | (k, n) :: rest, mood => if k = mood then some n else countOf rest mood

/-- The statement `dist[mood] = (dist[mood] || 0) + 1`. -/
def increment : MoodCounts → Mood → MoodCounts
  | [], mood => [(mood, 0 + 1)]
  | (k, n) :: rest, mood =>
    if k = mood then (k, n + 1) :: rest else (k, n) :: increment rest mood

/-- The object `moodDistribution` of `mood.js`: the reduce over the entries that
counts each mood, starting from the empty object. -/
def moodDistribution (moodEntries : List MoodEntry) : MoodCounts :=
  moodEntries.foldl (fun dist entry => increment dist entry.mood) []

/-- JavaScript `x > y` on two property reads: false when a side is `undefined`. -/
def greaterThan : Option Nat → Option Nat → Bool
  | some x, some y => decide (x > y)
  | _, _ => false

/-- The reduce `Object.keys(dist).reduce((a, b) => (dist[a] > dist[b] ? a : b), "CONTENT")`
shared by `mood.js` and `insights.js`. -/
def reduceKeys (dist : MoodCounts) : Mood :=
  (dist.map Prod.fst).foldl
    (fun a b => if greaterThan (countOf dist a) (countOf dist b) then a else b) Mood.CONTENT

/-- The value `mostFrequentMood` of `GET /api/mood/history`. -/
def mostFrequentMood (moodEntries : List MoodEntry) : Mood :=
  reduceKeys (moodDistribution moodEntries)

/-- The object `mostCommonMood` of `GET /api/insights/dashboard`: the counts when
there are entries, the empty object otherwise. -/
def mostCommonMood (moodEntries : List MoodEntry) : MoodCounts :=
  if moodEntries.length > 0 then
    moodEntries.foldl (fun acc entry => increment acc entry.mood) []
  else []

/-- The value `topMood` of `GET /api/insights/dashboard`. -/
def topMood (moodEntries : List MoodEntry) : Mood :=
  reduceKeys (mostCommonMood moodEntries)

/-- The number of entries of the list that carry the mood. -/
def occurrences (moodEntries : List MoodEntry) (mood : Mood) : Nat :=
  (moodEntries.map MoodEntry.mood).count mood


/-! ## Facts about the response catalogues -/

theorem basicReferral_names_contact : includes basicReferralResponse "Dr. Saheed" = true := by
  decide

theorem basicSad_no_contact : includes basicSadResponse "Dr. Saheed" = false := by decide

theorem basicAnxiety_no_contact : includes basicAnxietyResponse "Dr. Saheed" = false := by decide

theorem basicDefault_no_contact : includes basicDefaultResponse "Dr. Saheed" = false := by decide

theorem responsesGreeting_no_contact : includes responsesGreeting "Dr. Saheed" = false := by
  decide

theorem responsesSad_no_contact : includes responsesSad "Dr. Saheed" = false := by decide

theorem responsesAnxious_no_contact : includes responsesAnxious "Dr. Saheed" = false := by decide

theorem responsesHappy_no_contact : includes responsesHappy "Dr. Saheed" = false := by decide

theorem responsesDefault_no_contact : includes responsesDefault "Dr. Saheed" = false := by decide

theorem basicSad_ne_referral : basicSadResponse ≠ basicReferralResponse := by decide

theorem basicAnxiety_ne_referral : basicAnxietyResponse ≠ basicReferralResponse := by decide

theorem basicAnxiety_ne_sad : basicAnxietyResponse ≠ basicSadResponse := by decide

theorem basicDefault_ne_referral : basicDefaultResponse ≠ basicReferralResponse := by decide

theorem basicDefault_ne_sad : basicDefaultResponse ≠ basicSadResponse := by decide

theorem basicDefault_ne_anxiety : basicDefaultResponse ≠ basicAnxietyResponse := by decide

theorem responsesSad_ne_greeting : responsesSad ≠ responsesGreeting := by decide

theorem responsesAnxious_ne_greeting : responsesAnxious ≠ responsesGreeting := by decide

theorem responsesAnxious_ne_sad : responsesAnxious ≠ responsesSad := by decide

theorem responsesHappy_ne_greeting : responsesHappy ≠ responsesGreeting := by decide

theorem responsesHappy_ne_sad : responsesHappy ≠ responsesSad := by decide

theorem responsesHappy_ne_anxious : responsesHappy ≠ responsesAnxious := by decide

theorem responsesDefault_ne_greeting : responsesDefault ≠ responsesGreeting := by decide

theorem responsesDefault_ne_sad : responsesDefault ≠ responsesSad := by decide

theorem responsesDefault_ne_anxious : responsesDefault ≠ responsesAnxious := by decide

theorem responsesDefault_ne_happy : responsesDefault ≠ responsesHappy := by decide

/-! ## The classifiers as decision lists -/

/-- The rule order of `generateBasicAIResponse`, read off as categories. -/
theorem basicCategoryOf_generate (toLowerCase : String → String) (message : String) :
    basicCategoryOf (generateBasicAIResponse toLowerCase message) =
      if hasReferralTrigger (toLowerCase message) then Category.professional_referral
      else if hasSadnessTrigger (toLowerCase message) then Category.sadness
      else if hasAnxietyTrigger (toLowerCase message) then Category.anxiety
      else Category.default := by
  unfold generateBasicAIResponse hasReferralTrigger hasSadnessTrigger hasAnxietyTrigger
  simp only []
  split
  · simp [basicCategoryOf]
  · split
    · simp [basicCategoryOf, basicSad_ne_referral]
    · split
      · simp [basicCategoryOf, basicAnxiety_ne_referral, basicAnxiety_ne_sad]
      · simp [basicCategoryOf, basicDefault_ne_referral, basicDefault_ne_sad,
          basicDefault_ne_anxiety]

/-- The rule order of `generateAIResponse`, read off as categories. -/
theorem pushCategoryOf_generate (toLowerCase : String → String) (message : String) :
    pushCategoryOf (generateAIResponse toLowerCase message) =
      if hasGreetingTrigger (toLowerCase message) then Category.greeting
      else if hasSadnessTrigger (toLowerCase message) then Category.sadness
      else if hasAnxietyTrigger (toLowerCase message) then Category.anxiety
      else if hasHappinessTrigger (toLowerCase message) then Category.happiness
      else Category.default := by
  unfold generateAIResponse hasGreetingTrigger hasSadnessTrigger hasAnxietyTrigger
    hasHappinessTrigger
  simp only []
  split
  · simp [pushCategoryOf]
  · split
    · simp [pushCategoryOf, responsesSad_ne_greeting]
    · split
      · simp [pushCategoryOf, responsesAnxious_ne_greeting, responsesAnxious_ne_sad]
      · split
        · simp [pushCategoryOf, responsesHappy_ne_greeting, responsesHappy_ne_sad,
            responsesHappy_ne_anxious]
        · simp [pushCategoryOf, responsesDefault_ne_greeting, responsesDefault_ne_sad,
            responsesDefault_ne_anxious, responsesDefault_ne_happy]

/-- A text with a referral trigger gets the referral response on the pull channel. -/
theorem generateBasic_of_referral (toLowerCase : String → String) (message : String)
    (h : hasReferralTrigger (toLowerCase message) = true) :
    generateBasicAIResponse toLowerCase message = basicReferralResponse := by
  unfold hasReferralTrigger at h
  unfold generateBasicAIResponse
  simp only []
  rw [if_pos h]

/-- The pull-channel response names the contact exactly on a referral trigger. -/
theorem generateBasic_names_contact_iff (toLowerCase : String → String) (message : String) :
    includes (generateBasicAIResponse toLowerCase message) "Dr. Saheed" = true ↔
      hasReferralTrigger (toLowerCase message) = true := by
  unfold generateBasicAIResponse hasReferralTrigger
  simp only []
  split
  · simp [basicReferral_names_contact, *]
  · split
    · simp [basicSad_no_contact, *]
    · split
      · simp [basicAnxiety_no_contact, *]
      · simp [basicDefault_no_contact, *]

/-- No response of the push-channel table names the referral contact. -/
theorem generateAI_no_contact (toLowerCase : String → String) (message : String) :
    includes (generateAIResponse toLowerCase message) "Dr. Saheed" = false := by
  unfold generateAIResponse
  simp only []
  split
  · exact responsesGreeting_no_contact
  · split
    · exact responsesSad_no_contact
    · split
      · exact responsesAnxious_no_contact
      · split
        · exact responsesHappy_no_contact
        · exact responsesDefault_no_contact

/-! ## Facts about the history query -/

/-- The rows of the history query are stored records of the user's conversation. -/
theorem mem_findMany {db : List Message} {userId : String} {m : Message}
    (h : m ∈ findMany db userId) : m ∈ db ∧ inConversation userId m = true := by
  unfold findMany at h
  have h1 := List.mem_of_mem_take h
  rw [List.mem_insertionSort] at h1
  exact List.mem_filter.mp h1

/-- The rows of the history query are in ascending order of `createdAt`. -/
theorem findMany_sorted (db : List Message) (userId : String) :
    (findMany db userId).Sorted createdAtLe := by
  unfold findMany
  exact (List.sorted_insertionSort createdAtLe _).sublist (List.take_sublist _ _)

/-- The history query returns at most one hundred rows. -/
theorem findMany_length_le (db : List Message) (userId : String) :
    (findMany db userId).length ≤ 100 := by
  unfold findMany
  exact List.length_take_le _ _

/-- Inserting a record into a list that ends with a record at least as late leaves
that last record in place. -/
theorem orderedInsert_append_last (x a : Message) (hxa : x.createdAt ≤ a.createdAt) :
    ∀ l : List Message, List.orderedInsert createdAtLe x (l ++ [a]) =
      List.orderedInsert createdAtLe x l ++ [a]
  | [] => by
    have h : createdAtLe x a := hxa
    simp [List.orderedInsert, h]
  | y :: l => by
    by_cases hxy : createdAtLe x y
    · simp [List.orderedInsert, hxy]
    · simp [List.orderedInsert, hxy, orderedInsert_append_last x a hxa l]

/-- Sorting a list extended by a record that is at least as late as every other
record keeps that record last. -/
theorem insertionSort_append_last (a : Message) :
    ∀ l : List Message, (∀ x ∈ l, x.createdAt ≤ a.createdAt) →
      List.insertionSort createdAtLe (l ++ [a]) = List.insertionSort createdAtLe l ++ [a]
  | [], _ => by simp
  | x :: l, h => by
    have hx : x.createdAt ≤ a.createdAt := h x (List.mem_cons_self x l)
    have hl : ∀ y ∈ l, y.createdAt ≤ a.createdAt := fun y hy => h y (List.mem_cons_of_mem x hy)
    show List.orderedInsert createdAtLe x (List.insertionSort createdAtLe (l ++ [a])) =
      List.orderedInsert createdAtLe x (List.insertionSort createdAtLe l) ++ [a]
    rw [insertionSort_append_last a l hl, orderedInsert_append_last x a hx]

/-- Below the cap the history query shows a dispatched pair: when the user's
conversation holds at most 98 messages and the creation times given to the two new
records are not earlier than those already stored, the rows after a successful
`POST /message` are the rows before followed by the user message and the agent
message. -/
theorem findMany_after_postMessage (toLowerCase : String → String) (db : List Message)
    (userId message : String) (id1 t1 id2 t2 : Nat)
    (hcap : (db.filter (inConversation userId)).length + 2 ≤ 100)
    (hclock : ∀ m ∈ db, m.createdAt ≤ t1) (h12 : t1 ≤ t2) :
    findMany (postMessage toLowerCase db userId message (CreateOutcome.stored id1 t1)
        (CreateOutcome.stored id2 t2)).db userId =
      findMany db userId ++
        [{ id := id1, content := message, senderId := userId, receiverId := "ai",
           isAI := false, createdAt := t1 },
         { id := id2, content := generateBasicAIResponse toLowerCase message,
           senderId := "ai", receiverId := userId, isAI := true, createdAt := t2 }] := by
  have hdb : (postMessage toLowerCase db userId message (CreateOutcome.stored id1 t1)
      (CreateOutcome.stored id2 t2)).db =
      (db ++ [{ id := id1, content := message, senderId := userId, receiverId := "ai",
                isAI := false, createdAt := t1 }]) ++
        [{ id := id2, content := generateBasicAIResponse toLowerCase message,
           senderId := "ai", receiverId := userId, isAI := true, createdAt := t2 }] := rfl
  rw [hdb]
  unfold findMany
  have hu : inConversation userId
      { id := id1, content := message, senderId := userId, receiverId := "ai",
        isAI := false, createdAt := t1 } = true := by simp [inConversation]
  have ha : inConversation userId
      { id := id2, content := generateBasicAIResponse toLowerCase message,
        senderId := "ai", receiverId := userId, isAI := true, createdAt := t2 } = true := by
    simp [inConversation]
  rw [List.filter_append, List.filter_append, List.filter_cons_of_pos ha,
    List.filter_cons_of_pos hu]
  simp only [List.filter_nil]
  rw [insertionSort_append_last, insertionSort_append_last]
  · have hlen : (List.insertionSort createdAtLe (db.filter (inConversation userId))).length
        + 2 ≤ 100 := by
      rw [List.length_insertionSort]; exact hcap
    rw [List.take_of_length_le (by simp; omega), List.take_of_length_le (by omega)]
    simp
  · intro x hx
    exact hclock x (List.mem_filter.mp hx).1
  · intro x hx
    rcases List.mem_append.mp hx with h | h
    · exact Nat.le_trans (hclock x (List.mem_filter.mp h).1) h12
    · simp at h
      rw [h]; exact h12

/-! ## Facts about rooms -/

/-- Joining a room twice is the same as joining it once. -/
theorem joinChat_idempotent (rooms : Rooms) (socketId userId : String) :
    joinChat (joinChat rooms socketId userId) socketId userId =
      joinChat rooms socketId userId := by
  unfold joinChat
  by_cases h : (socketId, roomOf userId) ∈ rooms
  · simp [h]
  · simp [h]

/-! ## Facts about ASCII case mapping -/

/-- Lower-casing undoes upper-casing of a character, up to lower-casing. -/
theorem toLower_toUpper (c : Char) : (c.toUpper).toLower = c.toLower := by
  by_cases h : c.toNat ≥ 97 ∧ c.toNat ≤ 122
  · obtain ⟨h1, h2⟩ := h
    have hc : c = Char.ofNat c.toNat := (Char.ofNat_toNat c).symm
    generalize c.toNat = n at hc h1 h2
    subst hc
    interval_cases n <;> decide
  · have hu : c.toUpper = c := by
      unfold Char.toUpper
      simp only []
      rw [if_neg h]
    rw [hu]

/-- An ASCII character is upper-cased to a single character. -/
theorem upperChars_of_ascii (c : Char) (h : c.toNat < 128) : upperChars c = [c.toUpper] := by
  unfold upperChars
  have hne : c ≠ 'ß' := by
    intro e
    rw [e] at h
    exact absurd h (by decide)
  rw [if_neg hne]

/-- On ASCII characters, lower-casing the upper-cased list gives the lower-cased
list. -/
theorem map_toLower_upperChars : ∀ l : List Char, (∀ c ∈ l, c.toNat < 128) →
    (l.flatMap upperChars).map Char.toLower = l.map Char.toLower
  | [], _ => rfl
  | c :: l, h => by
    have hc := h c (List.mem_cons_self c l)
    have hl : ∀ d ∈ l, d.toNat < 128 := fun d hd => h d (List.mem_cons_of_mem c hd)
    rw [List.flatMap_cons, List.map_append, map_toLower_upperChars l hl,
      upperChars_of_ascii c hc]
    simp [toLower_toUpper]

/-- An ASCII text and its upper-cased form have the same lower-cased form. -/
theorem asciiLower_toUpperCase (s : String) (h : ∀ c ∈ s.data, c.toNat < 128) :
    asciiLower (toUpperCase s) = asciiLower s := by
  unfold asciiLower toUpperCase
  rw [map_toLower_upperChars s.data h]


/-- The history query keeps the oldest rows: a message of the user's conversation
that the query leaves out is at least as late as every row it returns. -/
theorem findMany_keeps_oldest (db : List Message) (userId : String) (m m' : Message)
    (hm : m ∈ findMany db userId) (hdb : m' ∈ db) (hconv : inConversation userId m' = true)
    (hout : m' ∉ findMany db userId) : m.createdAt ≤ m'.createdAt := by
  unfold findMany at hm hout
  have hsorted := List.sorted_insertionSort createdAtLe (db.filter (inConversation userId))
  have hmem : m' ∈ List.insertionSort createdAtLe (db.filter (inConversation userId)) := by
    rw [List.mem_insertionSort]
    exact List.mem_filter.mpr ⟨hdb, hconv⟩
  rw [← List.take_append_drop 100
    (List.insertionSort createdAtLe (db.filter (inConversation userId)))] at hsorted hmem
  rcases List.mem_append.mp hmem with h | h
  · exact absurd h hout
  · exact (List.pairwise_append.mp hsorted).2.2 m hm m' h

/-- Below the cap the history query shows two records appended to the store: when
both belong to the user's conversation, the conversation held at most 98 messages
and the creation times do not go backwards, the rows afterwards are the rows
before followed by the two records. -/
theorem findMany_append_pair (db : List Message) (userId : String) (m1 m2 : Message)
    (h1 : inConversation userId m1 = true) (h2 : inConversation userId m2 = true)
    (hcap : (db.filter (inConversation userId)).length + 2 ≤ 100)
    (hclock : ∀ m ∈ db, m.createdAt ≤ m1.createdAt) (h12 : m1.createdAt ≤ m2.createdAt) :
    findMany (db ++ [m1, m2]) userId = findMany db userId ++ [m1, m2] := by
  have hsplit : db ++ [m1, m2] = (db ++ [m1]) ++ [m2] := by simp
  rw [hsplit]
  unfold findMany
  rw [List.filter_append, List.filter_append, List.filter_cons_of_pos h2,
    List.filter_cons_of_pos h1]
  simp only [List.filter_nil]
  rw [insertionSort_append_last, insertionSort_append_last]
  · have hlen : (List.insertionSort createdAtLe (db.filter (inConversation userId))).length
        + 2 ≤ 100 := by
      rw [List.length_insertionSort]; exact hcap
    rw [List.take_of_length_le (by simp; omega), List.take_of_length_le (by omega)]
    simp
  · intro x hx
    exact hclock x (List.mem_filter.mp hx).1
  · intro x hx
    rcases List.mem_append.mp hx with h | h
    · exact Nat.le_trans (hclock x (List.mem_filter.mp h).1) h12
    · simp at h
      rw [h]; exact h12

/-- Below the cap the history query shows the pair a successful push-channel run
appends, agent message last. -/
theorem findMany_after_sendMessage (toLowerCase : String → String) (db : List Message)
    (data : SendMessageData) (now id1 t1 id2 t2 : Nat)
    (hcap : (db.filter (inConversation data.userId)).length + 2 ≤ 100)
    (hclock : ∀ m ∈ db, m.createdAt ≤ t1) (h12 : t1 ≤ t2) :
    findMany (sendMessage toLowerCase db data now (CreateOutcome.stored id1 t1)
        (CreateOutcome.stored id2 t2)).db data.userId =
      findMany db data.userId ++
        [{ id := id1, content := data.message, senderId := data.userId,
           receiverId := receiverOrAi data.receiverId, isAI := false, createdAt := t1 },
         { id := id2, content := generateAIResponse toLowerCase data.message,
           senderId := "ai", receiverId := data.userId, isAI := true, createdAt := t2 }] := by
  have hdb : (sendMessage toLowerCase db data now (CreateOutcome.stored id1 t1)
      (CreateOutcome.stored id2 t2)).db =
      db ++ [{ id := id1, content := data.message, senderId := data.userId,
               receiverId := receiverOrAi data.receiverId, isAI := false, createdAt := t1 },
             { id := id2, content := generateAIResponse toLowerCase data.message,
               senderId := "ai", receiverId := data.userId, isAI := true,
               createdAt := t2 }] := by
    simp [sendMessage, create]
  rw [hdb]
  exact findMany_append_pair db data.userId _ _ (by simp [inConversation])
    (by simp [inConversation]) hcap hclock h12

/-- A successful push-channel run stores the agent message before it schedules the
delivery, and schedules it last: the `setTimeout` step is the final step, right
after the `create` call of the agent message. -/
theorem sendMessage_stores_then_schedules (toLowerCase : String → String)
    (db : List Message) (data : SendMessageData) (now id1 t1 id2 t2 : Nat) :
    ({ id := id2, content := generateAIResponse toLowerCase data.message, senderId := "ai",
       receiverId := data.userId, isAI := true, createdAt := t2 } : Message) ∈
        (sendMessage toLowerCase db data now (CreateOutcome.stored id1 t1)
          (CreateOutcome.stored id2 t2)).db ∧
      (sendMessage toLowerCase db data now (CreateOutcome.stored id1 t1)
        (CreateOutcome.stored id2 t2)).steps.drop 3 =
        [Step.create { content := generateAIResponse toLowerCase data.message,
                       senderId := "ai", receiverId := data.userId, isAI := true }
           (CreateOutcome.stored id2 t2),
         Step.setTimeout
           { delay := 1000, room := roomOf data.userId, id := id2,
             text := generateAIResponse toLowerCase data.message }] := by
  constructor
  · simp [sendMessage, create]
  · rfl


/-! ## Facts about the mood counts -/

/-- The count a mood has, 0 when the object has no such key. -/
theorem countOf_increment (dist : MoodCounts) (m k : Mood) :
    countOf (increment dist m) k =
      if k = m then some ((countOf dist m).getD 0 + 1) else countOf dist k := by
  induction dist with
  | nil =>
    by_cases h : k = m
    · subst h; simp [increment, countOf]
    · have h' : ¬ m = k := fun e => h e.symm
      simp [increment, countOf, h, h']
  | cons p rest ih =>
    obtain ⟨j, n⟩ := p
    by_cases hjm : j = m
    · subst hjm
      by_cases h : k = j
      · subst h; simp [increment, countOf]
      · have h' : ¬ j = k := fun e => h e.symm
        simp [increment, countOf, h, h']
    · by_cases hjk : j = k
      · subst hjk
        simp [increment, countOf, hjm]
      · simp [increment, countOf, hjm, hjk, ih]

/-- Counting a list of entries into an object adds the occurrences to the counts. -/
theorem countOf_foldl (moodEntries : List MoodEntry) :
    ∀ (acc : MoodCounts) (k : Mood),
      countOf (moodEntries.foldl (fun dist entry => increment dist entry.mood) acc) k =
        if occurrences moodEntries k = 0 then countOf acc k
        else some ((countOf acc k).getD 0 + occurrences moodEntries k) := by
  induction moodEntries with
  | nil => intro acc k; simp [occurrences]
  | cons e es ih =>
    intro acc k
    rw [List.foldl_cons, ih, countOf_increment]
    by_cases hk : k = e.mood
    · subst hk
      have h1 : occurrences (e :: es) e.mood = occurrences es e.mood + 1 := by
        simp [occurrences]
      rw [h1]
      by_cases h0 : occurrences es e.mood = 0
      · simp [h0]
      · simp [h0]; omega
    · have h1 : occurrences (e :: es) k = occurrences es k := by
        have hk' : ¬ e.mood = k := fun h => hk h.symm
        simp [occurrences, List.count_cons, hk']
      rw [h1]
      simp [hk]

/-- The counts of `moodDistribution` are the occurrences, with no key for a mood
that does not occur. -/
theorem countOf_moodDistribution (moodEntries : List MoodEntry) (k : Mood) :
    countOf (moodDistribution moodEntries) k =
      if occurrences moodEntries k = 0 then none else some (occurrences moodEntries k) := by
  unfold moodDistribution
  rw [countOf_foldl]
  simp [countOf]

/-- A mood is a key of the object exactly when the property read is defined. -/
theorem mem_keys_iff (dist : MoodCounts) (k : Mood) :
    k ∈ dist.map Prod.fst ↔ (countOf dist k).isSome = true := by
  induction dist with
  | nil => simp [countOf]
  | cons p rest ih =>
    obtain ⟨j, n⟩ := p
    by_cases hjk : j = k
    · subst hjk; simp [countOf]
    · have h' : ¬ k = j := fun e => hjk e.symm
      simp [countOf, hjk, h', ih]

/-- The reduce step from a mood with a defined count, over keys with defined counts:
the result is the start or one of the keys, and no count exceeds its count. -/
theorem foldl_max_defined (dist : MoodCounts) :
    ∀ (keys : List Mood) (a : Mood),
      (∀ k ∈ keys, (countOf dist k).isSome = true) → (countOf dist a).isSome = true →
      (keys.foldl (fun a b => if greaterThan (countOf dist a) (countOf dist b) then a else b) a
          = a ∨
        keys.foldl (fun a b => if greaterThan (countOf dist a) (countOf dist b) then a else b) a
          ∈ keys) ∧
      (countOf dist
        (keys.foldl (fun a b => if greaterThan (countOf dist a) (countOf dist b) then a else b)
          a)).isSome = true ∧
      (countOf dist a).getD 0 ≤
        (countOf dist
          (keys.foldl
            (fun a b => if greaterThan (countOf dist a) (countOf dist b) then a else b)
            a)).getD 0 ∧
      ∀ k ∈ keys, (countOf dist k).getD 0 ≤
        (countOf dist
          (keys.foldl
            (fun a b => if greaterThan (countOf dist a) (countOf dist b) then a else b)
            a)).getD 0 := by
  intro keys
  induction keys with
  | nil => intro a _ ha; simp [ha]
  | cons b rest ih =>
    intro a hkeys ha
    have hb : (countOf dist b).isSome = true := hkeys b (List.mem_cons_self b rest)
    have hrest : ∀ k ∈ rest, (countOf dist k).isSome = true :=
      fun k hk => hkeys k (List.mem_cons_of_mem b hk)
    obtain ⟨x, hx⟩ := Option.isSome_iff_exists.mp ha
    obtain ⟨y, hy⟩ := Option.isSome_iff_exists.mp hb
    rw [List.foldl_cons]
    by_cases hgt : x > y
    · have hstep : (if greaterThan (countOf dist a) (countOf dist b) then a else b) = a := by
        simp [hx, hy, greaterThan, hgt]
      rw [hstep]
      obtain ⟨h1, h2, h3, h4⟩ := ih a hrest ha
      refine ⟨?_, h2, h3, ?_⟩
      · rcases h1 with h | h
        · exact Or.inl h
        · exact Or.inr (List.mem_cons_of_mem b h)
      · intro k hk
        rcases List.mem_cons.mp hk with h | h
        · subst h
          rw [hx] at h3
          rw [hy]
          simp only [Option.getD_some] at h3 ⊢
          omega
        · exact h4 k h
    · have hstep : (if greaterThan (countOf dist a) (countOf dist b) then a else b) = b := by
        simp [hx, hy, greaterThan, hgt]
      rw [hstep]
      obtain ⟨h1, h2, h3, h4⟩ := ih b hrest hb
      refine ⟨?_, h2, ?_, ?_⟩
      · rcases h1 with h | h
        · exact Or.inr (by rw [h]; exact List.mem_cons_self b rest)
        · exact Or.inr (List.mem_cons_of_mem b h)
      · rw [hy] at h3
        rw [hx]
        simp only [Option.getD_some] at h3 ⊢
        omega
      · intro k hk
        rcases List.mem_cons.mp hk with h | h
        · subst h; exact h3
        · exact h4 k h

/-- The reduce over the keys of a non-empty object returns a key whose count is
greatest, whether or not the seed "CONTENT" is a key. -/
theorem reduceKeys_max (dist : MoodCounts) (hne : dist ≠ []) :
    reduceKeys dist ∈ dist.map Prod.fst ∧
      ∀ k ∈ dist.map Prod.fst,
        (countOf dist k).getD 0 ≤ (countOf dist (reduceKeys dist)).getD 0 := by
  have hkeys : ∀ k ∈ dist.map Prod.fst, (countOf dist k).isSome = true :=
    fun k hk => (mem_keys_iff dist k).mp hk
  unfold reduceKeys
  by_cases hc : (countOf dist Mood.CONTENT).isSome = true
  · obtain ⟨h1, _, _, h4⟩ := foldl_max_defined dist (dist.map Prod.fst) Mood.CONTENT hkeys hc
    refine ⟨?_, h4⟩
    rcases h1 with h | h
    · rw [h]; exact (mem_keys_iff dist Mood.CONTENT).mpr hc
    · exact h
  · cases hd : dist with
    | nil => exact absurd hd hne
    | cons p rest =>
      rw [← hd]
      have hmap : dist.map Prod.fst = p.1 :: rest.map Prod.fst := by rw [hd]; rfl
      rw [hmap] at hkeys ⊢
      rw [List.foldl_cons]
      have hnone : countOf dist Mood.CONTENT = none := by
        cases h : countOf dist Mood.CONTENT with
        | none => rfl
        | some v => rw [h] at hc; simp at hc
      have hstep : (if greaterThan (countOf dist Mood.CONTENT) (countOf dist p.1)
          then Mood.CONTENT else p.1) = p.1 := by
        simp [hnone, greaterThan]
      rw [hstep]
      have hp : (countOf dist p.1).isSome = true :=
        hkeys p.1 (List.mem_cons_self _ _)
      obtain ⟨h1, _, h3, h4⟩ := foldl_max_defined dist (rest.map Prod.fst) p.1
        (fun k hk => hkeys k (List.mem_cons_of_mem _ hk)) hp
      refine ⟨?_, ?_⟩
      · rcases h1 with h | h
        · rw [h]; exact List.mem_cons_self _ _
        · exact List.mem_cons_of_mem _ h
      · intro k hk
        rcases List.mem_cons.mp hk with h | h
        · rw [h]; exact h3
        · exact h4 k h


/-! ## Claims -/

/-- C1: on the pull channel a text whose lower-cased form contains both a referral
trigger and a sadness trigger gets the professional-referral response, the one
naming Dr. Saheed, and not the sadness response. -/
theorem referral_wins_over_sadness (toLowerCase : String → String) (message : String)
    (href : hasReferralTrigger (toLowerCase message) = true)
    (_hsad : hasSadnessTrigger (toLowerCase message) = true) :
    generateBasicAIResponse toLowerCase message = basicReferralResponse ∧
      includes (generateBasicAIResponse toLowerCase message) "Dr. Saheed" = true ∧
      generateBasicAIResponse toLowerCase message ≠ basicSadResponse ∧
      basicCategoryOf (generateBasicAIResponse toLowerCase message) =
        Category.professional_referral := by
  have h := generateBasic_of_referral toLowerCase message href
  refine ⟨h, ?_, ?_, ?_⟩
  · rw [h]; exact basicReferral_names_contact
  · rw [h]; exact fun e => basicSad_ne_referral e.symm
  · rw [basicCategoryOf_generate, if_pos href]

/-- Witness of C1 on the text "I feel SAD, I want a Doctor". -/
theorem referral_wins_over_sadness_witness :
    generateBasicAIResponse asciiLower "I feel SAD, I want a Doctor" = basicReferralResponse ∧
      includes (generateBasicAIResponse asciiLower "I feel SAD, I want a Doctor") "Dr. Saheed"
        = true ∧
      generateBasicAIResponse asciiLower "I feel SAD, I want a Doctor" ≠ basicSadResponse ∧
      basicCategoryOf (generateBasicAIResponse asciiLower "I feel SAD, I want a Doctor") =
        Category.professional_referral :=
  referral_wins_over_sadness asciiLower "I feel SAD, I want a Doctor" (by decide) (by decide)

/-- C2, counterexample: on the text "I need a doctor" the push-channel classifier
selects the default category and the pull-channel classifier selects
professional_referral. -/
theorem channels_disagree_on_doctor :
    pushCategoryOf (generateAIResponse asciiLower "I need a doctor") = Category.default ∧
      basicCategoryOf (generateBasicAIResponse asciiLower "I need a doctor") =
        Category.professional_referral ∧
      pushCategoryOf (generateAIResponse asciiLower "I need a doctor") ≠
        basicCategoryOf (generateBasicAIResponse asciiLower "I need a doctor") := by
  decide

/-- C2, amended: the push-channel and the pull-channel classifier select the same
category exactly for the texts whose lower-cased form contains no referral trigger
and no greeting trigger, and contains a sadness or anxiety trigger or else no
happiness trigger. -/
theorem channels_agree_iff (toLowerCase : String → String) (message : String) :
    pushCategoryOf (generateAIResponse toLowerCase message) =
        basicCategoryOf (generateBasicAIResponse toLowerCase message) ↔
      hasReferralTrigger (toLowerCase message) = false ∧
        hasGreetingTrigger (toLowerCase message) = false ∧
        (hasSadnessTrigger (toLowerCase message) = true ∨
          hasAnxietyTrigger (toLowerCase message) = true ∨
          hasHappinessTrigger (toLowerCase message) = false) := by
  rw [pushCategoryOf_generate, basicCategoryOf_generate]
  cases hasReferralTrigger (toLowerCase message) <;>
    cases hasGreetingTrigger (toLowerCase message) <;>
    cases hasSadnessTrigger (toLowerCase message) <;>
    cases hasAnxietyTrigger (toLowerCase message) <;>
    cases hasHappinessTrigger (toLowerCase message) <;> simp

/-- C3: when both store writes of `POST /message` succeed, the reply is the success
reply, its agent message carries the classifier's response, and the agent
message's `showButtons` flag is true if and only if the text was classified as
professional_referral, that is if and only if the lower-cased text contains
"therapist" or "doctor". -/
theorem postMessage_showButtons_iff_referral (toLowerCase : String → String)
    (db : List Message) (userId message : String) (id1 t1 id2 t2 : Nat) :
    ∃ userView aiView : MessageView,
      (postMessage toLowerCase db userId message (CreateOutcome.stored id1 t1)
          (CreateOutcome.stored id2 t2)).reply = Reply.success ⟨userView, aiView⟩ ∧
        aiView.text = generateBasicAIResponse toLowerCase message ∧
        (aiView.showButtons = some true ↔
          basicCategoryOf (generateBasicAIResponse toLowerCase message) =
            Category.professional_referral) ∧
        (aiView.showButtons = some true ↔
          (includes (toLowerCase message) "therapist" = true ∨
            includes (toLowerCase message) "doctor" = true)) := by
  refine ⟨_, _, rfl, rfl, ?_, ?_⟩
  · simp only [create, Option.some.injEq]
    rw [generateBasic_names_contact_iff, basicCategoryOf_generate]
    cases hasReferralTrigger (toLowerCase message) <;>
      cases hasSadnessTrigger (toLowerCase message) <;>
      cases hasAnxietyTrigger (toLowerCase message) <;> simp
  · simp only [create, Option.some.injEq]
    rw [generateBasic_names_contact_iff]
    simp [hasReferralTrigger]

/-- C4, counterexample: on the scenario text "I think I need to see a therapist"
the push-channel classifier returns its greeting response ("think" contains
"hi"), which does not name Dr. Saheed. -/
theorem push_scenario_not_referral :
    generateAIResponse asciiLower "I think I need to see a therapist" = responsesGreeting ∧
      includes (generateAIResponse asciiLower "I think I need to see a therapist")
        "Dr. Saheed" = false := by
  decide

/-- C4, amended: for a text whose lower-cased form contains a referral trigger the
pull-channel classifier returns the professional-referral response, which names
Dr. Saheed; the push-channel classifier has no referral rule and answers the same
text by its own table (greeting, sad, anxious, happy, default), with a response
that does not name Dr. Saheed. -/
theorem referral_on_pull_only (toLowerCase : String → String) (message : String)
    (href : hasReferralTrigger (toLowerCase message) = true) :
    generateBasicAIResponse toLowerCase message = basicReferralResponse ∧
      includes (generateBasicAIResponse toLowerCase message) "Dr. Saheed" = true ∧
      includes (generateAIResponse toLowerCase message) "Dr. Saheed" = false ∧
      pushCategoryOf (generateAIResponse toLowerCase message) ≠
        Category.professional_referral ∧
      pushCategoryOf (generateAIResponse toLowerCase message) =
        (if hasGreetingTrigger (toLowerCase message) then Category.greeting
        else if hasSadnessTrigger (toLowerCase message) then Category.sadness
        else if hasAnxietyTrigger (toLowerCase message) then Category.anxiety
        else if hasHappinessTrigger (toLowerCase message) then Category.happiness
        else Category.default) := by
  have h := generateBasic_of_referral toLowerCase message href
  refine ⟨h, ?_, generateAI_no_contact toLowerCase message, ?_,
    pushCategoryOf_generate toLowerCase message⟩
  · rw [h]; exact basicReferral_names_contact
  · rw [pushCategoryOf_generate]
    cases hasGreetingTrigger (toLowerCase message) <;>
      cases hasSadnessTrigger (toLowerCase message) <;>
      cases hasAnxietyTrigger (toLowerCase message) <;>
      cases hasHappinessTrigger (toLowerCase message) <;> simp

/-- Witness of the amended C4 on the scenario text. -/
theorem referral_on_pull_only_witness :
    generateBasicAIResponse asciiLower "I think I need to see a therapist" =
        basicReferralResponse ∧
      includes (generateBasicAIResponse asciiLower "I think I need to see a therapist")
        "Dr. Saheed" = true ∧
      includes (generateAIResponse asciiLower "I think I need to see a therapist")
        "Dr. Saheed" = false ∧
      pushCategoryOf (generateAIResponse asciiLower "I think I need to see a therapist") ≠
        Category.professional_referral ∧
      pushCategoryOf (generateAIResponse asciiLower "I think I need to see a therapist") =
        (if hasGreetingTrigger (asciiLower "I think I need to see a therapist") then
          Category.greeting
        else if hasSadnessTrigger (asciiLower "I think I need to see a therapist") then
          Category.sadness
        else if hasAnxietyTrigger (asciiLower "I think I need to see a therapist") then
          Category.anxiety
        else if hasHappinessTrigger (asciiLower "I think I need to see a therapist") then
          Category.happiness
        else Category.default) :=
  referral_on_pull_only asciiLower "I think I need to see a therapist" (by decide)

/-- C5, failing input: the user "u1" already has one hundred messages; a message is
dispatched through `POST /message`, both appends succeed with creation times 100
and 101, the store holds the two new records, and the history query returns the
same hundred entries as before, none of them new. -/
theorem history_misses_new_pair :
    (postMessage asciiLower hundredMessages "u1" "hello" (CreateOutcome.stored 100 100)
        (CreateOutcome.stored 101 101)).db =
        hundredMessages ++
          [{ id := 100, content := "hello", senderId := "u1", receiverId := "ai",
             isAI := false, createdAt := 100 },
           { id := 101, content := basicDefaultResponse, senderId := "ai",
             receiverId := "u1", isAI := true, createdAt := 101 }] ∧
      findMany
        (postMessage asciiLower hundredMessages "u1" "hello" (CreateOutcome.stored 100 100)
          (CreateOutcome.stored 101 101)).db "u1" = findMany hundredMessages "u1" ∧
      getHistory
        (postMessage asciiLower hundredMessages "u1" "hello" (CreateOutcome.stored 100 100)
          (CreateOutcome.stored 101 101)).db "u1" true =
        getHistory hundredMessages "u1" true ∧
      findMany hundredMessages "u1" = hundredMessages ∧
      ({ id := 100, content := "hello", senderId := "u1", receiverId := "ai",
         isAI := false, createdAt := 100 } : Message) ∉
        findMany
          (postMessage asciiLower hundredMessages "u1" "hello" (CreateOutcome.stored 100 100)
            (CreateOutcome.stored 101 101)).db "u1" ∧
      ({ id := 101, content := basicDefaultResponse, senderId := "ai", receiverId := "u1",
         isAI := true, createdAt := 101 } : Message) ∉
        findMany
          (postMessage asciiLower hundredMessages "u1" "hello" (CreateOutcome.stored 100 100)
            (CreateOutcome.stored 101 101)).db "u1" := by
  decide

/-- C6: whatever the store holds, the history query succeeds with a list of at most
100 entries, one per row of the underlying query; every row is a stored message
that has the user as `senderId` or as `receiverId`, and the rows are in ascending
order of `createdAt`. -/
theorem history_capped_filtered_ascending (db : List Message) (userId : String) :
    getHistory db userId true =
        Reply.success ((findMany db userId).map (formatMessage userId)) ∧
      ((findMany db userId).map (formatMessage userId)).length ≤ 100 ∧
      (findMany db userId).length ≤ 100 ∧
      (∀ m ∈ findMany db userId, m ∈ db ∧ (m.senderId = userId ∨ m.receiverId = userId)) ∧
      List.Pairwise (fun a b => a.createdAt ≤ b.createdAt) (findMany db userId) := by
  refine ⟨rfl, ?_, findMany_length_le db userId, ?_, findMany_sorted db userId⟩
  · rw [List.length_map]; exact findMany_length_le db userId
  · intro m hm
    obtain ⟨hdb, hconv⟩ := mem_findMany hm
    refine ⟨hdb, ?_⟩
    simpa [inConversation] using hconv

/-- C7, counterexample: the empty text sent by "u1" on an empty store is not
rejected: on the pull channel and on the push channel both messages are appended,
and the pull channel answers with the success reply. -/
theorem empty_text_is_persisted :
    (postMessage asciiLower [] "u1" "" (CreateOutcome.stored 1 10)
        (CreateOutcome.stored 2 11)).db =
        [{ id := 1, content := "", senderId := "u1", receiverId := "ai", isAI := false,
           createdAt := 10 },
         { id := 2, content := basicDefaultResponse, senderId := "ai", receiverId := "u1",
           isAI := true, createdAt := 11 }] ∧
      (postMessage asciiLower [] "u1" "" (CreateOutcome.stored 1 10)
        (CreateOutcome.stored 2 11)).reply =
        Reply.success
          { userMessage :=
              { id := 1, text := "", isUser := true, timestamp := 10, showButtons := none }
            aiMessage :=
              { id := 2, text := basicDefaultResponse, isUser := false, timestamp := 11,
                showButtons := some false } } ∧
      (sendMessage asciiLower [] { message := "", userId := "u1", receiverId := none } 10
        (CreateOutcome.stored 1 10) (CreateOutcome.stored 2 11)).db =
        [{ id := 1, content := "", senderId := "u1", receiverId := "ai", isAI := false,
           createdAt := 10 },
         { id := 2, content := responsesDefault, senderId := "ai", receiverId := "u1",
           isAI := true, createdAt := 11 }] := by
  decide

/-- C7, amended: neither handler validates the text; the empty string is dispatched
like any other text.  When both appends succeed the store gains the user message
with empty content followed by the agent message carrying the channel's default
response, and the pull channel answers with the success reply. -/
theorem empty_text_dispatched (toLowerCase : String → String) (hlow : toLowerCase "" = "")
    (db : List Message) (userId : String) (receiverId : Option String)
    (now id1 t1 id2 t2 : Nat) :
    (postMessage toLowerCase db userId "" (CreateOutcome.stored id1 t1)
        (CreateOutcome.stored id2 t2)).db =
        db ++
          [{ id := id1, content := "", senderId := userId, receiverId := "ai",
             isAI := false, createdAt := t1 },
           { id := id2, content := basicDefaultResponse, senderId := "ai",
             receiverId := userId, isAI := true, createdAt := t2 }] ∧
      (postMessage toLowerCase db userId "" (CreateOutcome.stored id1 t1)
        (CreateOutcome.stored id2 t2)).reply =
        Reply.success
          { userMessage :=
              { id := id1, text := "", isUser := true, timestamp := t1, showButtons := none }
            aiMessage :=
              { id := id2, text := basicDefaultResponse, isUser := false, timestamp := t2,
                showButtons := some false } } ∧
      (sendMessage toLowerCase db { message := "", userId := userId, receiverId := receiverId }
        now (CreateOutcome.stored id1 t1) (CreateOutcome.stored id2 t2)).db =
        db ++
          [{ id := id1, content := "", senderId := userId,
             receiverId := receiverOrAi receiverId, isAI := false, createdAt := t1 },
           { id := id2, content := responsesDefault, senderId := "ai",
             receiverId := userId, isAI := true, createdAt := t2 }] := by
  have hb : generateBasicAIResponse toLowerCase "" = basicDefaultResponse := by
    unfold generateBasicAIResponse
    rw [hlow]
    decide
  have hp : generateAIResponse toLowerCase "" = responsesDefault := by
    unfold generateAIResponse
    rw [hlow]
    decide
  refine ⟨?_, ?_, ?_⟩
  · simp [postMessage, create, hb]
  · simp [postMessage, create, hb, basicDefault_no_contact]
  · simp [sendMessage, create, hp]

/-- Witness of the amended C7 for the user "u1" on an empty store. -/
theorem empty_text_dispatched_witness :
    (postMessage asciiLower [] "u1" "" (CreateOutcome.stored 1 10)
        (CreateOutcome.stored 2 11)).db =
        [] ++
          [{ id := 1, content := "", senderId := "u1", receiverId := "ai",
             isAI := false, createdAt := 10 },
           { id := 2, content := basicDefaultResponse, senderId := "ai",
             receiverId := "u1", isAI := true, createdAt := 11 }] ∧
      (postMessage asciiLower [] "u1" "" (CreateOutcome.stored 1 10)
        (CreateOutcome.stored 2 11)).reply =
        Reply.success
          { userMessage :=
              { id := 1, text := "", isUser := true, timestamp := 10, showButtons := none }
            aiMessage :=
              { id := 2, text := basicDefaultResponse, isUser := false, timestamp := 11,
                showButtons := some false } } ∧
      (sendMessage asciiLower [] { message := "", userId := "u1", receiverId := none }
        10 (CreateOutcome.stored 1 10) (CreateOutcome.stored 2 11)).db =
        [] ++
          [{ id := 1, content := "", senderId := "u1",
             receiverId := receiverOrAi none, isAI := false, createdAt := 10 },
           { id := 2, content := responsesDefault, senderId := "ai",
             receiverId := "u1", isAI := true, createdAt := 11 }] :=
  empty_text_dispatched asciiLower (by decide) [] "u1" none 10 1 10 2 11

/-- C8, counterexample: on both channels, when the first append succeeds and the
second is rejected, the run ends with the user message recorded, the classifier
called, and no agent message in the store. -/
theorem user_message_without_agent_response :
    (postMessage asciiLower [] "u1" "hello" (CreateOutcome.stored 1 10)
        CreateOutcome.rejected).db =
        [{ id := 1, content := "hello", senderId := "u1", receiverId := "ai",
           isAI := false, createdAt := 10 }] ∧
      (postMessage asciiLower [] "u1" "hello" (CreateOutcome.stored 1 10)
        CreateOutcome.rejected).steps.any Step.isClassify = true ∧
      (sendMessage asciiLower [] { message := "hello", userId := "u1", receiverId := none } 10
        (CreateOutcome.stored 1 10) CreateOutcome.rejected).db =
        [{ id := 1, content := "hello", senderId := "u1", receiverId := "ai",
           isAI := false, createdAt := 10 }] ∧
      (sendMessage asciiLower [] { message := "hello", userId := "u1", receiverId := none } 10
        (CreateOutcome.stored 1 10) CreateOutcome.rejected).steps.any Step.isClassify =
        true := by
  decide

/-- C8, amended: on either channel a run has one of exactly three outcomes, decided
by the two appends: the first append is rejected, the store is unchanged and the
classifier is not called; or the first append succeeds and the second is rejected,
the store gains the user message only and the classifier was called; or both
appends succeed and the store gains the user message followed by its agent
response. -/
theorem dispatch_three_outcomes (toLowerCase : String → String) (db : List Message)
    (userId message : String) (data : SendMessageData) (now : Nat) (o1 o2 : CreateOutcome) :
    ((o1 = CreateOutcome.rejected ∧
        (postMessage toLowerCase db userId message o1 o2).db = db ∧
        (postMessage toLowerCase db userId message o1 o2).steps.any Step.isClassify = false) ∨
      (∃ id1 t1, o1 = CreateOutcome.stored id1 t1 ∧ o2 = CreateOutcome.rejected ∧
        (postMessage toLowerCase db userId message o1 o2).db =
          db ++ [{ id := id1, content := message, senderId := userId, receiverId := "ai",
                   isAI := false, createdAt := t1 }] ∧
        (postMessage toLowerCase db userId message o1 o2).steps.any Step.isClassify = true) ∨
      (∃ id1 t1 id2 t2, o1 = CreateOutcome.stored id1 t1 ∧ o2 = CreateOutcome.stored id2 t2 ∧
        (postMessage toLowerCase db userId message o1 o2).db =
          db ++ [{ id := id1, content := message, senderId := userId, receiverId := "ai",
                   isAI := false, createdAt := t1 },
                 { id := id2, content := generateBasicAIResponse toLowerCase message,
                   senderId := "ai", receiverId := userId, isAI := true, createdAt := t2 }] ∧
        (postMessage toLowerCase db userId message o1 o2).steps.any Step.isClassify = true)) ∧
    ((o1 = CreateOutcome.rejected ∧
        (sendMessage toLowerCase db data now o1 o2).db = db ∧
        (sendMessage toLowerCase db data now o1 o2).steps.any Step.isClassify = false) ∨
      (∃ id1 t1, o1 = CreateOutcome.stored id1 t1 ∧ o2 = CreateOutcome.rejected ∧
        (sendMessage toLowerCase db data now o1 o2).db =
          db ++ [{ id := id1, content := data.message, senderId := data.userId,
                   receiverId := receiverOrAi data.receiverId, isAI := false,
                   createdAt := t1 }] ∧
        (sendMessage toLowerCase db data now o1 o2).steps.any Step.isClassify = true) ∨
      (∃ id1 t1 id2 t2, o1 = CreateOutcome.stored id1 t1 ∧ o2 = CreateOutcome.stored id2 t2 ∧
        (sendMessage toLowerCase db data now o1 o2).db =
          db ++ [{ id := id1, content := data.message, senderId := data.userId,
                   receiverId := receiverOrAi data.receiverId, isAI := false,
                   createdAt := t1 },
                 { id := id2, content := generateAIResponse toLowerCase data.message,
                   senderId := "ai", receiverId := data.userId, isAI := true,
                   createdAt := t2 }] ∧
        (sendMessage toLowerCase db data now o1 o2).steps.any Step.isClassify = true)) := by
  constructor
  · cases o1 with
    | rejected => exact Or.inl ⟨rfl, rfl, rfl⟩
    | stored id1 t1 =>
      cases o2 with
      | rejected =>
        exact Or.inr (Or.inl ⟨id1, t1, rfl, rfl, rfl, rfl⟩)
      | stored id2 t2 =>
        refine Or.inr (Or.inr ⟨id1, t1, id2, t2, rfl, rfl, ?_, rfl⟩)
        simp [postMessage, create]
  · cases o1 with
    | rejected => exact Or.inl ⟨rfl, rfl, rfl⟩
    | stored id1 t1 =>
      cases o2 with
      | rejected =>
        exact Or.inr (Or.inl ⟨id1, t1, rfl, rfl, rfl, rfl⟩)
      | stored id2 t2 =>
        refine Or.inr (Or.inr ⟨id1, t1, id2, t2, rfl, rfl, ?_, rfl⟩)
        simp [sendMessage, create]

/-- C9, counterexample: when the first append of a push-channel run is rejected, the
handler only writes to the console; no event is emitted, so nothing reaches the
sending caller. -/
theorem push_failure_is_silent :
    (sendMessage asciiLower [] { message := "hello", userId := "u1", receiverId := none } 10
        CreateOutcome.rejected CreateOutcome.rejected).steps =
        [Step.create { content := "hello", senderId := "u1", receiverId := "ai",
                       isAI := false } CreateOutcome.rejected,
         Step.consoleError "Error handling message:"] ∧
      (sendMessage asciiLower [] { message := "hello", userId := "u1", receiverId := none } 10
        CreateOutcome.rejected CreateOutcome.rejected).steps.any Step.isEmit = false := by
  decide

/-- C9, amended: if a store append fails, the pull channel answers with status 500,
success=false and the message "Failed to send message", while the push channel only
logs the error and sends nothing to the caller about it; on both channels the
rejected append is followed by the console log alone, so no later pipeline step
runs (on the push channel no delivery is scheduled). -/
theorem append_failure_handling (toLowerCase : String → String) (db : List Message)
    (userId message : String) (data : SendMessageData) (now : Nat) (o1 o2 : CreateOutcome)
    (hfail : o1 = CreateOutcome.rejected ∨
      ((∃ id1 t1, o1 = CreateOutcome.stored id1 t1) ∧ o2 = CreateOutcome.rejected)) :
    (postMessage toLowerCase db userId message o1 o2).reply =
        Reply.failure 500 "Failed to send message" ∧
      (∃ before d, (postMessage toLowerCase db userId message o1 o2).steps =
        before ++ [Step.create d CreateOutcome.rejected,
          Step.consoleError "Send message error:"] ∧
        ∀ s ∈ before, ∀ d0, s ≠ Step.create d0 CreateOutcome.rejected) ∧
      (∃ before d, (sendMessage toLowerCase db data now o1 o2).steps =
        before ++ [Step.create d CreateOutcome.rejected,
          Step.consoleError "Error handling message:"] ∧
        (∀ s ∈ before, ∀ d0, s ≠ Step.create d0 CreateOutcome.rejected) ∧
        (before = [] ∨ ∃ d1 id1 t1 echo text response,
          before = [Step.create d1 (CreateOutcome.stored id1 t1),
            Step.emit (roomOf data.userId) echo, Step.classify text response] ∧
          echo.isUser = true ∧ echo.text = data.message)) ∧
      (∀ timer, Step.setTimeout timer ∉ (sendMessage toLowerCase db data now o1 o2).steps) := by
  rcases hfail with h1 | ⟨⟨id1, t1, h1⟩, h2⟩
  · subst h1
    refine ⟨rfl, ⟨[], _, rfl, ?_⟩, ⟨[], _, rfl, ?_, Or.inl rfl⟩, ?_⟩
    · intro s hs; cases hs
    · intro s hs; cases hs
    · intro timer hmem
      simp [sendMessage, create] at hmem
  · subst h1 h2
    refine ⟨rfl, ⟨[_, _], _, rfl, ?_⟩,
      ⟨[_, _, _], _, rfl, ?_, Or.inr ⟨_, _, _, _, _, _, rfl, rfl, rfl⟩⟩, ?_⟩
    · intro s hs d0
      simp at hs
      rcases hs with rfl | rfl <;> simp
    · intro s hs d0
      simp at hs
      rcases hs with rfl | rfl | rfl <;> simp
    · intro timer hmem
      simp [sendMessage, create] at hmem

/-- Witness of the amended C9: the second append is rejected. -/
theorem append_failure_handling_witness :
    (postMessage asciiLower [] "u1" "hello" (CreateOutcome.stored 1 10)
        CreateOutcome.rejected).reply = Reply.failure 500 "Failed to send message" ∧
      (∃ before d, (postMessage asciiLower [] "u1" "hello" (CreateOutcome.stored 1 10)
        CreateOutcome.rejected).steps =
        before ++ [Step.create d CreateOutcome.rejected,
          Step.consoleError "Send message error:"] ∧
        ∀ s ∈ before, ∀ d0, s ≠ Step.create d0 CreateOutcome.rejected) ∧
      (∃ before d,
        (sendMessage asciiLower [] { message := "hello", userId := "u1", receiverId := none }
          10 (CreateOutcome.stored 1 10) CreateOutcome.rejected).steps =
        before ++ [Step.create d CreateOutcome.rejected,
          Step.consoleError "Error handling message:"] ∧
        (∀ s ∈ before, ∀ d0, s ≠ Step.create d0 CreateOutcome.rejected) ∧
        (before = [] ∨ ∃ d1 id1 t1 echo text response,
          before = [Step.create d1 (CreateOutcome.stored id1 t1),
            Step.emit
              (roomOf (SendMessageData.mk "hello" "u1" none).userId) echo,
            Step.classify text response] ∧
          echo.isUser = true ∧ echo.text = (SendMessageData.mk "hello" "u1" none).message)) ∧
      (∀ timer, Step.setTimeout timer ∉
        (sendMessage asciiLower [] { message := "hello", userId := "u1", receiverId := none }
          10 (CreateOutcome.stored 1 10) CreateOutcome.rejected).steps) :=
  append_failure_handling asciiLower [] "u1" "hello"
    { message := "hello", userId := "u1", receiverId := none } 10 (CreateOutcome.stored 1 10)
    CreateOutcome.rejected (Or.inr ⟨⟨1, 10, rfl⟩, rfl⟩)

/-- C10, counterexample: a push-channel payload that carries the receiverId "u2"
makes the handler append a user message whose receiverId is "u2", not "ai". -/
theorem push_receiver_from_payload :
    (sendMessage asciiLower []
        { message := "hello", userId := "u1", receiverId := some "u2" } 10
        (CreateOutcome.stored 1 10) (CreateOutcome.stored 2 11)).db =
      [{ id := 1, content := "hello", senderId := "u1", receiverId := "u2", isAI := false,
         createdAt := 10 },
       { id := 2, content := responsesGreeting, senderId := "ai", receiverId := "u1",
         isAI := true, createdAt := 11 }] := by
  decide

/-- C10, amended: the first step of either handler is the `create` call for the user
message, with the inbound text as content, the sending user's id as `senderId` and
`isAI` false; its `receiverId` is "ai" on the pull channel, and on the push channel
it is the payload's `receiverId` when that is present and non-empty and "ai"
otherwise.  When the call succeeds, that record is what the store gains first. -/
theorem user_message_fields (toLowerCase : String → String) (db : List Message)
    (userId message : String) (data : SendMessageData) (now : Nat) (o1 o2 : CreateOutcome)
    (id1 t1 : Nat) :
    (postMessage toLowerCase db userId message o1 o2).steps.head? =
        some (Step.create { content := message, senderId := userId, receiverId := "ai",
                            isAI := false } o1) ∧
      (sendMessage toLowerCase db data now o1 o2).steps.head? =
        some (Step.create { content := data.message, senderId := data.userId,
                            receiverId := (match data.receiverId with
                              | none => "ai"
                              | some r => if r = "" then "ai" else r),
                            isAI := false } o1) ∧
      (∃ rest, (postMessage toLowerCase db userId message (CreateOutcome.stored id1 t1) o2).db =
        db ++ { id := id1, content := message, senderId := userId, receiverId := "ai",
                isAI := false, createdAt := t1 } :: rest) ∧
      (∃ rest, (sendMessage toLowerCase db data now (CreateOutcome.stored id1 t1) o2).db =
        db ++ { id := id1, content := data.message, senderId := data.userId,
                receiverId := (match data.receiverId with
                  | none => "ai"
                  | some r => if r = "" then "ai" else r),
                isAI := false, createdAt := t1 } :: rest) := by
  have hr : (match data.receiverId with
      | none => "ai"
      | some r => if r = "" then "ai" else r) = receiverOrAi data.receiverId := by
    cases data.receiverId <;> rfl
  rw [hr]
  refine ⟨?_, ?_, ?_, ?_⟩
  · cases o1 with
    | rejected => rfl
    | stored i t => cases o2 <;> rfl
  · cases o1 with
    | rejected => rfl
    | stored i t => cases o2 <;> rfl
  · cases o2 with
    | rejected => exact ⟨[], rfl⟩
    | stored i t =>
      exact ⟨[{ id := i, content := generateBasicAIResponse toLowerCase message,
                senderId := "ai", receiverId := userId, isAI := true, createdAt := t }],
        by simp [postMessage, create]⟩
  · cases o2 with
    | rejected => exact ⟨[], rfl⟩
    | stored i t =>
      exact ⟨[{ id := i, content := generateAIResponse toLowerCase data.message,
                senderId := "ai", receiverId := data.userId, isAI := true, createdAt := t }],
        by simp [sendMessage, create]⟩

/-- C11, counterexample: on both channels, when the user append succeeds and the
next append is rejected, the store gains the user message and no agent message:
zero agent messages are appended for that user message, not exactly one. -/
theorem no_agent_message_when_append_rejected :
    (sendMessage asciiLower [] { message := "hello", userId := "u1", receiverId := none } 10
        (CreateOutcome.stored 1 10) CreateOutcome.rejected).db =
        [{ id := 1, content := "hello", senderId := "u1", receiverId := "ai",
           isAI := false, createdAt := 10 }] ∧
      ((sendMessage asciiLower [] { message := "hello", userId := "u1", receiverId := none } 10
        (CreateOutcome.stored 1 10) CreateOutcome.rejected).db.filter
          Message.fromAgent).length = 0 ∧
      ((postMessage asciiLower [] "u1" "hello" (CreateOutcome.stored 1 10)
        CreateOutcome.rejected).db.filter Message.fromAgent).length = 0 := by
  decide

/-- C11, amended: on either channel, when the user append succeeds the dispatcher
makes exactly one `create` call for an agent message, after the user append, with
`senderId` "ai", `receiverId` equal to the `senderId` of the user message, `isAI`
true and the channel's classifier response to the inbound text as content.  When
that call succeeds the agent message is appended after the user message, at the end
of the store as it then is, whatever records other handlers have appended since the
user message; when it is rejected no agent message is appended.  So the run appends
at most one agent message for the user message: one when the call succeeds, none
when it is rejected. -/
theorem agent_message_fields (toLowerCase : String → String) (db : List Message)
    (userId message : String) (data : SendMessageData) (now id1 t1 : Nat)
    (o2 : CreateOutcome) :
    ((postMessage toLowerCase db userId message (CreateOutcome.stored id1 t1) o2).steps =
        [Step.create { content := message, senderId := userId, receiverId := "ai",
                       isAI := false } (CreateOutcome.stored id1 t1),
         Step.classify message (generateBasicAIResponse toLowerCase message),
         Step.create { content := generateBasicAIResponse toLowerCase message,
                       senderId := "ai", receiverId := userId, isAI := true } o2] ++
          (match o2 with
            | CreateOutcome.rejected => [Step.consoleError "Send message error:"]
            | CreateOutcome.stored _ _ => []) ∧
      (postMessage toLowerCase db userId message (CreateOutcome.stored id1 t1)
        o2).steps.filter Step.isAgentCreate =
        [Step.create { content := generateBasicAIResponse toLowerCase message,
                       senderId := "ai", receiverId := userId, isAI := true } o2] ∧
      (postMessage toLowerCase db userId message (CreateOutcome.stored id1 t1) o2).db =
        db ++
          { id := id1, content := message, senderId := userId, receiverId := "ai",
            isAI := false, createdAt := t1 } ::
          (match o2 with
            | CreateOutcome.rejected => []
            | CreateOutcome.stored id2 t2 =>
              [{ id := id2, content := generateBasicAIResponse toLowerCase message,
                 senderId := "ai", receiverId := userId, isAI := true,
                 createdAt := t2 }])) ∧
    ((sendMessage toLowerCase db data now (CreateOutcome.stored id1 t1)
        o2).steps.filter Step.isAgentCreate =
        [Step.create { content := generateAIResponse toLowerCase data.message,
                       senderId := "ai", receiverId := data.userId, isAI := true } o2] ∧
      (sendMessage toLowerCase db data now (CreateOutcome.stored id1 t1)
        o2).steps.take 4 =
        [Step.create { content := data.message, senderId := data.userId,
                       receiverId := receiverOrAi data.receiverId, isAI := false }
           (CreateOutcome.stored id1 t1),
         Step.emit (roomOf data.userId)
           { id := id1, text := data.message, isUser := true, timestamp := now,
             showButtons := none },
         Step.classify data.message (generateAIResponse toLowerCase data.message),
         Step.create { content := generateAIResponse toLowerCase data.message,
                       senderId := "ai", receiverId := data.userId, isAI := true } o2] ∧
      (sendMessage toLowerCase db data now (CreateOutcome.stored id1 t1) o2).db =
        db ++
          { id := id1, content := data.message, senderId := data.userId,
            receiverId := receiverOrAi data.receiverId, isAI := false, createdAt := t1 } ::
          (match o2 with
            | CreateOutcome.rejected => []
            | CreateOutcome.stored id2 t2 =>
              [{ id := id2, content := generateAIResponse toLowerCase data.message,
                 senderId := "ai", receiverId := data.userId, isAI := true,
                 createdAt := t2 }])) ∧
    ((∀ (between : List Message) (id2 t2 : Nat),
        create
          (db ++
            { id := id1, content := message, senderId := userId, receiverId := "ai",
              isAI := false, createdAt := t1 } :: between)
          { content := generateBasicAIResponse toLowerCase message, senderId := "ai",
            receiverId := userId, isAI := true } (CreateOutcome.stored id2 t2) =
        some
          ({ id := id2, content := generateBasicAIResponse toLowerCase message,
             senderId := "ai", receiverId := userId, isAI := true, createdAt := t2 },
           db ++
            { id := id1, content := message, senderId := userId, receiverId := "ai",
              isAI := false, createdAt := t1 } ::
            (between ++
              [{ id := id2, content := generateBasicAIResponse toLowerCase message,
                 senderId := "ai", receiverId := userId, isAI := true,
                 createdAt := t2 }]))) ∧
      (∀ (between : List Message) (id2 t2 : Nat),
        create
          (db ++
            { id := id1, content := data.message, senderId := data.userId,
              receiverId := receiverOrAi data.receiverId, isAI := false,
              createdAt := t1 } :: between)
          { content := generateAIResponse toLowerCase data.message, senderId := "ai",
            receiverId := data.userId, isAI := true } (CreateOutcome.stored id2 t2) =
        some
          ({ id := id2, content := generateAIResponse toLowerCase data.message,
             senderId := "ai", receiverId := data.userId, isAI := true, createdAt := t2 },
           db ++
            { id := id1, content := data.message, senderId := data.userId,
              receiverId := receiverOrAi data.receiverId, isAI := false,
              createdAt := t1 } ::
            (between ++
              [{ id := id2, content := generateAIResponse toLowerCase data.message,
                 senderId := "ai", receiverId := data.userId, isAI := true,
                 createdAt := t2 }])))) := by
  have hbetween : ∀ (um am : Message) (between : List Message),
      (db ++ um :: between) ++ [am] = db ++ um :: (between ++ [am]) := by
    intro um am between
    simp
  refine ⟨?_, ?_, ⟨?_, ?_⟩⟩
  · cases o2 with
    | rejected => exact ⟨rfl, rfl, rfl⟩
    | stored id2 t2 =>
      refine ⟨rfl, rfl, ?_⟩
      simp [postMessage, create]
  · cases o2 with
    | rejected => exact ⟨rfl, rfl, rfl⟩
    | stored id2 t2 =>
      refine ⟨rfl, rfl, ?_⟩
      simp [sendMessage, create]
  · intro between id2 t2
    simp only [create, hbetween]
  · intro between id2 t2
    simp only [create, hbetween]


/-- C12, counterexample: the text "depreßed" and its upper-cased form "DEPRESSED" are
not classified alike: the first lower-cases to itself and matches no rule (default
response on both channels), the second lower-cases to "depressed" and gets the
sadness response on both channels. -/
theorem sharp_s_breaks_case_insensitivity :
    toUpperCase "depreßed" = "DEPRESSED" ∧
      asciiLower "depreßed" = "depreßed" ∧
      asciiLower (toUpperCase "depreßed") = "depressed" ∧
      generateAIResponse asciiLower "depreßed" = responsesDefault ∧
      generateAIResponse asciiLower (toUpperCase "depreßed") = responsesSad ∧
      generateBasicAIResponse asciiLower "depreßed" = basicDefaultResponse ∧
      generateBasicAIResponse asciiLower (toUpperCase "depreßed") = basicSadResponse := by
  decide

/-- C12, amended: two texts with the same lower-cased form get the same response from
`generateAIResponse` and the same response from `generateBasicAIResponse`; in
particular a text of ASCII characters and its upper-cased form are classified
alike on both channels. -/
theorem same_lower_form_same_response (toLowerCase : String → String) (a b s : String)
    (hsame : toLowerCase a = toLowerCase b) (hascii : ∀ c ∈ s.data, c.toNat < 128) :
    generateAIResponse toLowerCase a = generateAIResponse toLowerCase b ∧
      generateBasicAIResponse toLowerCase a = generateBasicAIResponse toLowerCase b ∧
      asciiLower (toUpperCase s) = asciiLower s ∧
      generateAIResponse asciiLower (toUpperCase s) = generateAIResponse asciiLower s ∧
      generateBasicAIResponse asciiLower (toUpperCase s) =
        generateBasicAIResponse asciiLower s := by
  have hup := asciiLower_toUpperCase s hascii
  refine ⟨?_, ?_, hup, ?_, ?_⟩
  · unfold generateAIResponse
    simp only [hsame]
  · unfold generateBasicAIResponse
    simp only [hsame]
  · unfold generateAIResponse
    simp only [hup]
  · unfold generateBasicAIResponse
    simp only [hup]

/-- Witness of the amended C12 on the texts "I feel Sad" and "i FEEL sad". -/
theorem same_lower_form_same_response_witness :
    generateAIResponse asciiLower "I feel Sad" = generateAIResponse asciiLower "i FEEL sad" ∧
      generateBasicAIResponse asciiLower "I feel Sad" =
        generateBasicAIResponse asciiLower "i FEEL sad" ∧
      asciiLower (toUpperCase "I feel Sad") = asciiLower "I feel Sad" ∧
      generateAIResponse asciiLower (toUpperCase "I feel Sad") =
        generateAIResponse asciiLower "I feel Sad" ∧
      generateBasicAIResponse asciiLower (toUpperCase "I feel Sad") =
        generateBasicAIResponse asciiLower "I feel Sad" :=
  same_lower_form_same_response asciiLower "I feel Sad" "i FEEL sad" "I feel Sad"
    (by decide) (by decide)

/-- C13, counterexample: for the scenario text "hi", `POST /message` returns the
default response as agent text, not the welcoming greeting response. -/
theorem post_hi_gets_default :
    (postMessage asciiLower [] "u1" "hi" (CreateOutcome.stored 1 10)
        (CreateOutcome.stored 2 11)).reply =
        Reply.success
          { userMessage :=
              { id := 1, text := "hi", isUser := true, timestamp := 10, showButtons := none }
            aiMessage :=
              { id := 2, text := basicDefaultResponse, isUser := false, timestamp := 11,
                showButtons := some false } } ∧
      basicDefaultResponse ≠ responsesGreeting ∧
      basicCategoryOf (generateBasicAIResponse asciiLower "hi") = Category.default := by
  decide

/-- C13, amended: for a text whose lower-cased form contains a greeting trigger and
no referral, sadness or anxiety trigger, `POST /message`, whose classifier has no
greeting rule, classifies it as default: the returned agent text is the default
response and its `showButtons` flag is false.  The welcoming greeting response
comes from the push-channel classifier only, which returns it for every such
text. -/
theorem greeting_on_pull_is_default (toLowerCase : String → String) (db : List Message)
    (userId message : String) (id1 t1 id2 t2 : Nat)
    (hgreet : hasGreetingTrigger (toLowerCase message) = true)
    (href : hasReferralTrigger (toLowerCase message) = false)
    (hsad : hasSadnessTrigger (toLowerCase message) = false)
    (hanx : hasAnxietyTrigger (toLowerCase message) = false) :
    (postMessage toLowerCase db userId message (CreateOutcome.stored id1 t1)
        (CreateOutcome.stored id2 t2)).reply =
        Reply.success
          { userMessage :=
              { id := id1, text := message, isUser := true, timestamp := t1,
                showButtons := none }
            aiMessage :=
              { id := id2, text := basicDefaultResponse, isUser := false, timestamp := t2,
                showButtons := some false } } ∧
      basicCategoryOf (generateBasicAIResponse toLowerCase message) = Category.default ∧
      generateAIResponse toLowerCase message = responsesGreeting := by
  have hb : generateBasicAIResponse toLowerCase message = basicDefaultResponse := by
    unfold hasReferralTrigger at href
    unfold hasSadnessTrigger at hsad
    unfold hasAnxietyTrigger at hanx
    unfold generateBasicAIResponse
    simp only [href, hsad, hanx]
    rfl
  refine ⟨?_, ?_, ?_⟩
  · simp [postMessage, create, hb, basicDefault_no_contact]
  · rw [basicCategoryOf_generate, href, hsad, hanx]
    rfl
  · unfold hasGreetingTrigger at hgreet
    unfold generateAIResponse
    simp only [hgreet]
    rfl

/-- Witness of the amended C13 on the scenario text "hi". -/
theorem greeting_on_pull_is_default_witness :
    (postMessage asciiLower [] "u1" "hi" (CreateOutcome.stored 1 10)
        (CreateOutcome.stored 2 11)).reply =
        Reply.success
          { userMessage :=
              { id := 1, text := "hi", isUser := true, timestamp := 10,
                showButtons := none }
            aiMessage :=
              { id := 2, text := basicDefaultResponse, isUser := false, timestamp := 11,
                showButtons := some false } } ∧
      basicCategoryOf (generateBasicAIResponse asciiLower "hi") = Category.default ∧
      generateAIResponse asciiLower "hi" = responsesGreeting :=
  greeting_on_pull_is_default asciiLower [] "u1" "hi" 1 10 2 11 (by decide) (by decide)
    (by decide) (by decide)

/-- C14, counterexample: the text "I feel sad about this" contains the sadness
trigger "sad" and, inside "this", the greeting trigger "hi"; the push-channel
classifier returns the greeting response, not the sadness response. -/
theorem sad_text_gets_greeting :
    hasSadnessTrigger (asciiLower "I feel sad about this") = true ∧
      hasGreetingTrigger (asciiLower "I feel sad about this") = true ∧
      generateAIResponse asciiLower "I feel sad about this" = responsesGreeting ∧
      generateAIResponse asciiLower "I feel sad about this" ≠ responsesSad := by
  decide

/-- C14, amended: on the push channel greeting takes precedence over sadness: a text
whose lower-cased form contains a sadness trigger and also a greeting trigger (as
a substring anywhere) gets the greeting response from `generateAIResponse`, not the
sadness response. -/
theorem greeting_wins_over_sadness (toLowerCase : String → String) (message : String)
    (_hsad : hasSadnessTrigger (toLowerCase message) = true)
    (hgreet : hasGreetingTrigger (toLowerCase message) = true) :
    generateAIResponse toLowerCase message = responsesGreeting ∧
      generateAIResponse toLowerCase message ≠ responsesSad ∧
      pushCategoryOf (generateAIResponse toLowerCase message) = Category.greeting := by
  have hg : generateAIResponse toLowerCase message = responsesGreeting := by
    unfold hasGreetingTrigger at hgreet
    unfold generateAIResponse
    simp only [hgreet]
    rfl
  refine ⟨hg, ?_, ?_⟩
  · rw [hg]; exact fun e => responsesSad_ne_greeting e.symm
  · rw [pushCategoryOf_generate, hgreet]
    rfl

/-- Witness of the amended C14 on the text "I feel sad about this". -/
theorem greeting_wins_over_sadness_witness :
    generateAIResponse asciiLower "I feel sad about this" = responsesGreeting ∧
      generateAIResponse asciiLower "I feel sad about this" ≠ responsesSad ∧
      pushCategoryOf (generateAIResponse asciiLower "I feel sad about this") =
        Category.greeting :=
  greeting_wins_over_sadness asciiLower "I feel sad about this" (by decide) (by decide)


/-- C15, failing input: the user "u1" sends "I saw Dr. Saheed today" through
`POST /message` on an empty store; in the history the entry of that user message
(`isUser` true) has `showButtons` true, although it is no agent response and no
therapist recommendation. -/
theorem user_message_gets_buttons :
    getHistory
        (postMessage asciiLower [] "u1" "I saw Dr. Saheed today" (CreateOutcome.stored 1 10)
          (CreateOutcome.stored 2 11)).db "u1" true =
      Reply.success
        [{ id := 1, text := "I saw Dr. Saheed today", isUser := true, timestamp := 10,
           showButtons := some true },
         { id := 2, text := basicDefaultResponse, isUser := false, timestamp := 11,
           showButtons := some false }] := by
  decide

/-- C16, failing input: the conversation of "u1" holds 101 messages with creation
times 0 to 100; the history query returns the hundred oldest ones (creation times
0 to 99), not the hundred most recent: the message created at 0 is returned and
the most recent one, created at 100, is not. -/
theorem history_returns_oldest_hundred :
    findMany hundredAndOneMessages "u1" = hundredMessages ∧
      findMany hundredAndOneMessages "u1" ≠ hundredAndOneMessages.drop 1 ∧
      ({ id := 0, content := "hello", senderId := "u1", receiverId := "ai", isAI := false,
         createdAt := 0 } : Message) ∈ findMany hundredAndOneMessages "u1" ∧
      ({ id := 100, content := "hello", senderId := "u1", receiverId := "ai",
         isAI := false, createdAt := 100 } : Message) ∉
        findMany hundredAndOneMessages "u1" := by
  decide

/-- C17, failing input: the user "u1" already has one hundred messages and sends
"hello" on the push channel; both appends succeed.  The agent message is stored
before the timer is scheduled, and the timer only emits (to nobody when the joined
socket has disconnected, to the joined socket otherwise), but the history query for
"u1" does not return the agent message. -/
theorem push_agent_message_not_in_history :
    (sendMessage asciiLower hundredMessages
        { message := "hello", userId := "u1", receiverId := none } 100
        (CreateOutcome.stored 100 100) (CreateOutcome.stored 101 101)).db =
        hundredMessages ++
          [{ id := 100, content := "hello", senderId := "u1", receiverId := "ai",
             isAI := false, createdAt := 100 },
           { id := 101, content := responsesGreeting, senderId := "ai", receiverId := "u1",
             isAI := true, createdAt := 101 }] ∧
      (sendMessage asciiLower hundredMessages
        { message := "hello", userId := "u1", receiverId := none } 100
        (CreateOutcome.stored 100 100) (CreateOutcome.stored 101 101)).steps.drop 3 =
        [Step.create { content := responsesGreeting, senderId := "ai", receiverId := "u1",
                       isAI := true } (CreateOutcome.stored 101 101),
         Step.setTimeout
           { delay := 1000, room := "user_u1", id := 101, text := responsesGreeting }] ∧
      fireTimer (disconnect (joinChat [] "socket1" "u1") "socket1")
        { delay := 1000, room := "user_u1", id := 101, text := responsesGreeting } 1100 = [] ∧
      fireTimer (joinChat [] "socket1" "u1")
        { delay := 1000, room := "user_u1", id := 101, text := responsesGreeting } 1100 =
        [("socket1", { id := 101, text := responsesGreeting, isUser := false,
                       timestamp := 1100, showButtons := none })] ∧
      ({ id := 101, content := responsesGreeting, senderId := "ai", receiverId := "u1",
         isAI := true, createdAt := 101 } : Message) ∉
        findMany
          (sendMessage asciiLower hundredMessages
            { message := "hello", userId := "u1", receiverId := none } 100
            (CreateOutcome.stored 100 100) (CreateOutcome.stored 101 101)).db "u1" ∧
      getHistory
        (sendMessage asciiLower hundredMessages
          { message := "hello", userId := "u1", receiverId := none } 100
          (CreateOutcome.stored 100 100) (CreateOutcome.stored 101 101)).db "u1" true =
        getHistory hundredMessages "u1" true := by
  decide


/-- C18: the most-frequent-mood computation of `mood.js` (`mostFrequentMood`) and of
`insights.js` (`topMood`) returns "CONTENT" for the empty list, and for a non-empty
list a mood that occurs in the list and occurs at least as often as every mood,
whether or not "CONTENT" itself occurs. -/
theorem most_frequent_mood_is_a_mode (moodEntries : List MoodEntry)
    (hne : moodEntries ≠ []) :
    mostFrequentMood [] = Mood.CONTENT ∧ topMood [] = Mood.CONTENT ∧
      topMood moodEntries = mostFrequentMood moodEntries ∧
      mostFrequentMood moodEntries ∈ moodEntries.map MoodEntry.mood ∧
      0 < occurrences moodEntries (mostFrequentMood moodEntries) ∧
      ∀ mood, occurrences moodEntries mood ≤
        occurrences moodEntries (mostFrequentMood moodEntries) := by
  have htop : topMood moodEntries = mostFrequentMood moodEntries := by
    unfold topMood mostFrequentMood mostCommonMood moodDistribution
    have hlen : moodEntries.length > 0 := List.length_pos.mpr hne
    rw [if_pos hlen]
  have hval : ∀ k, (countOf (moodDistribution moodEntries) k).getD 0 =
      occurrences moodEntries k := by
    intro k
    rw [countOf_moodDistribution]
    by_cases h0 : occurrences moodEntries k = 0
    · simp [h0]
    · simp [h0]
  have hkey : ∀ k, k ∈ (moodDistribution moodEntries).map Prod.fst ↔
      0 < occurrences moodEntries k := by
    intro k
    rw [mem_keys_iff, countOf_moodDistribution]
    by_cases h0 : occurrences moodEntries k = 0
    · simp [h0]
    · simp [h0]; omega
  have hdist : moodDistribution moodEntries ≠ [] := by
    cases hm : moodEntries with
    | nil => exact absurd hm hne
    | cons e es =>
      have hpos : 0 < occurrences (e :: es) e.mood := by simp [occurrences]
      have hmem := (hkey e.mood).mpr (hm ▸ hpos)
      intro hnil
      rw [hm, hnil] at hmem
      simp at hmem
  obtain ⟨hmem, hmax⟩ := reduceKeys_max (moodDistribution moodEntries) hdist
  have hpos : 0 < occurrences moodEntries (mostFrequentMood moodEntries) :=
    (hkey _).mp hmem
  refine ⟨by decide, by decide, htop, ?_, hpos, ?_⟩
  · unfold occurrences at hpos
    exact List.count_pos_iff.mp hpos
  · intro mood
    by_cases h0 : occurrences moodEntries mood = 0
    · omega
    · have hk := hmax mood ((hkey mood).mpr (by omega))
      rw [hval, hval] at hk
      exact hk

/-- Witness of C18 on a list in which "CONTENT" does not occur. -/
theorem most_frequent_mood_is_a_mode_witness :
    mostFrequentMood [] = Mood.CONTENT ∧ topMood [] = Mood.CONTENT ∧
      topMood [⟨Mood.SAD, 3⟩, ⟨Mood.HAPPY, 5⟩, ⟨Mood.SAD, 1⟩] =
        mostFrequentMood [⟨Mood.SAD, 3⟩, ⟨Mood.HAPPY, 5⟩, ⟨Mood.SAD, 1⟩] ∧
      mostFrequentMood [⟨Mood.SAD, 3⟩, ⟨Mood.HAPPY, 5⟩, ⟨Mood.SAD, 1⟩] ∈
        List.map MoodEntry.mood [⟨Mood.SAD, 3⟩, ⟨Mood.HAPPY, 5⟩, ⟨Mood.SAD, 1⟩] ∧
      0 < occurrences [⟨Mood.SAD, 3⟩, ⟨Mood.HAPPY, 5⟩, ⟨Mood.SAD, 1⟩]
        (mostFrequentMood [⟨Mood.SAD, 3⟩, ⟨Mood.HAPPY, 5⟩, ⟨Mood.SAD, 1⟩]) ∧
      ∀ mood, occurrences [⟨Mood.SAD, 3⟩, ⟨Mood.HAPPY, 5⟩, ⟨Mood.SAD, 1⟩] mood ≤
        occurrences [⟨Mood.SAD, 3⟩, ⟨Mood.HAPPY, 5⟩, ⟨Mood.SAD, 1⟩]
          (mostFrequentMood [⟨Mood.SAD, 3⟩, ⟨Mood.HAPPY, 5⟩, ⟨Mood.SAD, 1⟩]) :=
  most_frequent_mood_is_a_mode [⟨Mood.SAD, 3⟩, ⟨Mood.HAPPY, 5⟩, ⟨Mood.SAD, 1⟩] (by decide)


end MindVolta
